import Mathlib

/-!
Verification of the redex specification against the sources of
`BlockInstrument.cpp`, `InterDex.cpp` and `ProguardParser.cpp`.

The development shallowly embeds the relevant functions of the three
components.  Machinery that the spec declares out of scope (the IR model,
the CFG editor, the DEX writer) is represented by abstract data carried in
the inputs: a basic block is a record of the queries the instrumenter makes
of it, a class is a record of its name and its reference lists, and so on.
Every embedded function mirrors the control flow of its C++ original.
-/

/-! ## Block instrumenter: data model (`BlockInstrument.cpp`) -/

/-- Flag set mirroring `enum class BlockType` of `BlockInstrument.cpp`;
one Boolean field per bit of the C++ bitmask. -/
structure BlockType where
  instrumentable : Bool := false
  empty : Bool := false
  useless : Bool := false
  normal : Bool := false
  is_catch : Bool := false
  move_exception : Bool := false
  no_source_block : Bool := false
deriving DecidableEq, Repr

/-- Bitwise or of two `BlockType` flag sets, mirroring `operator|`. -/
def BlockType.bor (a b : BlockType) : BlockType :=
  ⟨a.instrumentable || b.instrumentable, a.empty || b.empty, a.useless || b.useless,
   a.normal || b.normal, a.is_catch || b.is_catch, a.move_exception || b.move_exception,
   a.no_source_block || b.no_source_block⟩

/-- Test `(t & pat) == pat`, the containment test used by `count` and
`is_instrumentable` in `instrument_basic_blocks`. -/
def BlockType.hasAll (t pat : BlockType) : Bool :=
  (!pat.instrumentable || t.instrumentable) && (!pat.empty || t.empty) &&
  (!pat.useless || t.useless) && (!pat.normal || t.normal) &&
  (!pat.is_catch || t.is_catch) && (!pat.move_exception || t.move_exception) &&
  (!pat.no_source_block || t.no_source_block)

def btInstrumentable : BlockType := { instrumentable := true }

def btEmpty : BlockType := { empty := true }

def btUseless : BlockType := { useless := true }

def btNormal : BlockType := { normal := true }

def btCatch : BlockType := { is_catch := true }

def btMoveException : BlockType := { move_exception := true }

def btNoSourceBlock : BlockType := { no_source_block := true }

/-- Abstraction of one `cfg::Block*` as the queries `create_block_info`
makes of it.  The three `..._is_end` fields record whether the respective
insertion-point computation (`get_first_non_move_result_insn`,
`get_first_next_of_move_except`, `get_first_non_param_loading_insn`) lands
at `block->end()`; the IR list itself belongs to the out-of-scope IR model. -/
structure SrcBlock where
  id : Nat
  num_opcodes : Nat
  is_catch : Bool
  starts_with_move_result : Bool
  starts_with_move_exception : Bool
  first_non_move_result_is_end : Bool
  first_next_of_move_except_is_end : Bool
  first_non_param_loading_is_end : Bool
  has_source_blocks : Bool
  succs_empty : Bool
deriving DecidableEq, Repr

/-- Options of the pass that `create_block_info` consults. -/
structure InstrOptions where
  instrument_catches : Bool
  instrument_blocks_without_source_block : Bool
deriving DecidableEq, Repr

/-- Mirror of `struct BlockInfo` (block, type, bit id); the insertion
iterator lives in the external IR model and is not carried. -/
structure BlockInfo where
  block : SrcBlock
  btype : BlockType
  bit_id : Option Nat
deriving DecidableEq, Repr

/-- Mirror of `BlockInfo::is_instrumentable`. -/
def BlockInfo.is_instrumentable (i : BlockInfo) : Bool :=
  i.btype.hasAll btInstrumentable

/-- Mirror of `create_block_info` of `BlockInstrument.cpp`. -/
def create_block_info (block : SrcBlock) (options : InstrOptions) : BlockInfo :=
  if block.num_opcodes = 0 then ⟨block, btEmpty, none⟩
  else if block.is_catch && !options.instrument_catches then ⟨block, btCatch, none⟩
  else
    let t0 : BlockType := if block.is_catch then btCatch else btNormal
    let pr : Bool × BlockType :=
      if block.starts_with_move_result then
        (block.first_non_move_result_is_end, t0)
      else if block.starts_with_move_exception then
        (block.first_next_of_move_except_is_end, t0.bor btMoveException)
      else
        (block.first_non_param_loading_is_end, t0)
    if pr.1 then ⟨block, btUseless.bor pr.2, none⟩
    else if !options.instrument_blocks_without_source_block &&
            !block.has_source_blocks && !block.succs_empty then
      ⟨block, btNoSourceBlock.bor pr.2, none⟩
    else ⟨block, btInstrumentable.bor pr.2, none⟩

/-- Number of blocks the classifier marks instrumentable, before bit-id
assignment. -/
def countInstrumentable (blocks : List SrcBlock) (options : InstrOptions) : Nat :=
  (blocks.filter (fun b => (create_block_info b options).btype.hasAll btInstrumentable)).length

/-- Bit-id assignment loop of `get_blocks_to_instrument`: walks the blocks
in visitation order, classifies each, and hands out ids; `none` models the
early return taken when a fresh id would reach `max_num_blocks`. -/
def assignBitIds (options : InstrOptions) (max_num_blocks : Nat) :
    List SrcBlock → Nat → Option (List BlockInfo × Nat)
  | [], id => some ([], id)
  | b :: rest, id =>
    let info := create_block_info b options
    if info.btype.hasAll btInstrumentable then
      if id ≥ max_num_blocks then none
      else
        match assignBitIds options max_num_blocks rest (id + 1) with
        | none => none
        | some (l, idFin) => some ({ info with bit_id := some id } :: l, idFin)
    else
      match assignBitIds options max_num_blocks rest id with
      | none => none
      | some (l, idFin) => some (info :: l, idFin)

/-- Mirror of `get_blocks_to_instrument`.  The input list is the output of
the external source-block-ordered DFS (`visit_in_order`), which already
omits the entry block unless it has outgoing throw edges.  Returns the
`BlockInfo` list, the number of ids handed out, and the too-many-blocks
flag; on overflow the list collapses to `[]` exactly as in the source. -/
def get_blocks_to_instrument (blocks : List SrcBlock) (max_num_blocks : Nat)
    (options : InstrOptions) : List BlockInfo × Nat × Bool :=
  match assignBitIds options max_num_blocks blocks 0 with
  | none => ([], 0, true)
  | some (l, id) => (l, id, false)

/-- Mirror of the `count` lambda in `instrument_basic_blocks`:
`count_if ((i.type & type) == type)`. -/
def countType (blocks : List BlockInfo) (t : BlockType) : Nat :=
  (blocks.filter (fun i => i.btype.hasAll t)).length

/-- Assignment into an ordered map keyed by block id, modelling
`info.rejected_blocks[i.block->id()] = i.type` on a `std::map`. -/
def mapAssign : List (Nat × BlockType) → Nat → BlockType → List (Nat × BlockType)
  | [], k, v => [(k, v)]
  | (k', v') :: rest, k, v =>
    if k < k' then (k, v) :: (k', v') :: rest
    else if k = k' then (k, v) :: rest
    else (k', v') :: mapAssign rest k v

/-- Loop of `instrument_basic_blocks` filling `bit_id_2_block_id` and
`rejected_blocks` from the classified blocks. -/
def buildIdMaps : List BlockInfo → List Nat × List (Nat × BlockType)
  | [] => ([], [])
  | i :: rest =>
    let r := buildIdMaps rest
    if i.is_instrumentable then (i.block.id :: r.1, r.2)
    else (r.1, mapAssign r.2 i.block.id i.btype)

/-- Mirror of `struct MethodInfo` (the fields the claims speak about;
`bit_id_2_source_blocks` and the method handle live in the external IR). -/
structure MethodInfo where
  too_many_blocks : Bool
  offset : Nat
  num_non_entry_blocks : Nat
  num_vectors : Nat
  num_exit_calls : Nat
  num_empty_blocks : Nat
  num_useless_blocks : Nat
  num_no_source_blocks : Nat
  num_blocks_too_large : Nat
  num_catches : Nat
  num_instrumented_catches : Nat
  num_instrumented_blocks : Nat
  bit_id_2_block_id : List Nat
  rejected_blocks : List (Nat × BlockType)
deriving DecidableEq, Repr

instance : Inhabited MethodInfo :=
  ⟨⟨false, 0, 0, 0, 0, 0, 0, 0, 0, 0, 0, 0, [], []⟩⟩

/-- Mirror of `enum class InstrumentedType`. -/
inductive InstrumentedType where
  | methodOnly
  | both
  | unableToTrackBlock
deriving DecidableEq, Repr

/-- Integer written into the metadata CSV `instrument` column
(`static_cast<int>` of the enum). -/
def InstrumentedType.toInt : InstrumentedType → Nat
  | .methodOnly => 1
  | .both => 2
  | .unableToTrackBlock => 3

/-- Mirror of `get_instrumented_type`. -/
def get_instrumented_type (i : MethodInfo) : InstrumentedType :=
  if i.too_many_blocks then .methodOnly
  else if i.num_exit_calls = 0 && i.num_vectors ≠ 0 then .unableToTrackBlock
  else .both

/-- Mirror of `std::ceil(n / double(BIT_VECTOR_SIZE))` on naturals. -/
def ceilDiv16 (n : Nat) : Nat := (n + 15) / 16

/-- Number of OR-literal instructions `insert_block_coverage_computations`
inserts: one per instrumentable entry of the classified block list. -/
def insert_block_coverage_computations (blocks : List BlockInfo) : Nat :=
  (blocks.filter (fun i => i.is_instrumentable)).length

/-- Return value of `insert_onMethodExit_calls`: zero when `reg_vectors`
is empty (no instrumentation arranged), otherwise the number of terminal
exit blocks, each of which receives one call chain. -/
def insert_onMethodExit_calls (num_vectors : Nat) (num_terminal_exit_blocks : Nat) : Nat :=
  if num_vectors = 0 then 0 else num_terminal_exit_blocks

/-- Number of instructions `insert_prologue_insts` prepends to the entry
block: `num_vectors` vector initialisers, the offset constant and the
`invoke-static onMethodBegin`. -/
def insert_prologue_insts_count (num_vectors : Nat) : Nat := num_vectors + 2

/-- Mirror of `instrument_basic_blocks`.  `final_num_blocks` is
`cfg.blocks().size()` read back after the rewrite (the CFG editor is an
external service; prologue and exit insertion may split blocks), and
`num_terminal_exit_blocks` is the size of
`only_terminal_return_or_throw_blocks(cfg)`.  The three `always_assert`s
of the source become `Option` guards: `none` means the assertion fired
and the pass aborted. -/
def instrument_basic_blocks (blocks : List SrcBlock) (options : InstrOptions)
    (max_num_blocks : Nat) (method_offset : Nat)
    (final_num_blocks : Nat) (num_terminal_exit_blocks : Nat) : Option MethodInfo :=
  let r := get_blocks_to_instrument blocks max_num_blocks options
  let infos := r.1
  let num_to_instrument := r.2.1
  let too_many_blocks := r.2.2
  let num_vectors := ceilDiv16 num_to_instrument
  let num_exit_calls := insert_onMethodExit_calls num_vectors num_terminal_exit_blocks
  let maps := buildIdMaps infos
  let info : MethodInfo :=
    { too_many_blocks := too_many_blocks
      offset := method_offset
      num_non_entry_blocks := final_num_blocks - 1
      num_vectors := num_vectors
      num_exit_calls := num_exit_calls
      num_empty_blocks := countType infos btEmpty
      num_useless_blocks := countType infos btUseless
      num_no_source_blocks := countType infos btNoSourceBlock
      num_blocks_too_large := if too_many_blocks then final_num_blocks - 1 else 0
      num_catches := countType infos btCatch
      num_instrumented_catches := countType infos (btCatch.bor btInstrumentable)
      num_instrumented_blocks := num_to_instrument
      bit_id_2_block_id := maps.1
      rejected_blocks := maps.2 }
  if countType infos btInstrumentable ≠ num_to_instrument then none
  else
    let num_rejected_blocks :=
      info.num_empty_blocks + info.num_useless_blocks + info.num_no_source_blocks +
        info.num_blocks_too_large + (info.num_catches - info.num_instrumented_catches)
    if info.num_non_entry_blocks ≠ info.num_instrumented_blocks + num_rejected_blocks then none
    else if ¬(too_many_blocks = true ∨ info.rejected_blocks.length = num_rejected_blocks) then none
    else some info

/-- Mirror of `get_cold_start_classes`: walk the configured coldstart list,
stop at the first `LDexEndMarker0;`, and record each earlier entry with its
final character overwritten by a slash (entries are class names, hence
nonempty). -/
def get_cold_start_classes : List String → List String
  | [] => []
  | s :: rest =>
    if s = "LDexEndMarker0;" then []
    else (s.dropRight 1 ++ "/") :: get_cold_start_classes rest

/-! ## Block instrumenter: theorems -/

/-- Overflow characterisation of the bit-id loop: starting from an id not
yet past the limit, the loop aborts exactly when the instrumentable blocks
would push the id past `max_num_blocks`. -/
theorem assignBitIds_none_iff (options : InstrOptions) (max_num_blocks : Nat)
    (blocks : List SrcBlock) :
    ∀ id, id ≤ max_num_blocks →
      (assignBitIds options max_num_blocks blocks id = none ↔
        max_num_blocks < id + countInstrumentable blocks options) := by
  induction blocks with
  | nil =>
    intro id hle
    simp only [assignBitIds, countInstrumentable, List.filter_nil, List.length_nil,
      Nat.add_zero, reduceCtorEq, false_iff]
    omega
  | cons b rest ih =>
    intro id hle
    by_cases hb : (create_block_info b options).btype.hasAll btInstrumentable
    · have hcnt : countInstrumentable (b :: rest) options =
          countInstrumentable rest options + 1 := by
        simp [countInstrumentable, List.filter_cons, hb]
      rw [hcnt]
      by_cases hid : id ≥ max_num_blocks
      · have hres : assignBitIds options max_num_blocks (b :: rest) id = none := by
          simp [assignBitIds, hb, hid]
        rw [hres]
        simp only [eq_self_iff_true, true_iff]
        omega
      · have hrec := ih (id + 1) (by omega)
        have hres : assignBitIds options max_num_blocks (b :: rest) id = none ↔
            assignBitIds options max_num_blocks rest (id + 1) = none := by
          cases hr : assignBitIds options max_num_blocks rest (id + 1) with
          | none => simp [assignBitIds, hb, hid, hr]
          | some p => simp [assignBitIds, hb, hid, hr]
        rw [hres, hrec]
        omega
    · have hcnt : countInstrumentable (b :: rest) options =
          countInstrumentable rest options := by
        simp [countInstrumentable, List.filter_cons, hb]
      have hrec := ih id hle
      have hres : assignBitIds options max_num_blocks (b :: rest) id = none ↔
          assignBitIds options max_num_blocks rest id = none := by
        cases hr : assignBitIds options max_num_blocks rest id with
        | none => simp [assignBitIds, hb, hr]
        | some p => simp [assignBitIds, hb, hr]
      rw [hcnt, hres, hrec]

/-- C1: for every method on which `instrument_basic_blocks` completes (no
`always_assert` fires) with `too_many_blocks = false`, the record satisfies
`num_instrumented_blocks + |rejected_blocks| = num_non_entry_blocks`. -/
theorem instrument_basic_blocks_block_accounting
    (blocks : List SrcBlock) (options : InstrOptions)
    (max_num_blocks method_offset final_num_blocks num_terminal_exit_blocks : Nat)
    (info : MethodInfo)
    (h : instrument_basic_blocks blocks options max_num_blocks method_offset
          final_num_blocks num_terminal_exit_blocks = some info)
    (htmb : info.too_many_blocks = false) :
    info.num_instrumented_blocks + info.rejected_blocks.length =
      info.num_non_entry_blocks := by
  unfold instrument_basic_blocks at h
  rcases hg : get_blocks_to_instrument blocks max_num_blocks options with ⟨infos, nti, tmb⟩
  rw [hg] at h
  dsimp only at h
  cases tmb with
  | true =>
    exfalso
    simp only [eq_self_iff_true, if_true, true_or, not_true, if_false] at h
    split at h
    · exact Option.noConfusion h
    split at h
    · exact Option.noConfusion h
    injection h with h'
    rw [← h'] at htmb
    simp at htmb
  | false =>
    simp only [Bool.false_eq_true, false_or, if_false] at h
    split at h
    · exact Option.noConfusion h
    split at h
    · exact Option.noConfusion h
    split at h
    · exact Option.noConfusion h
    rename_i hc1 hc2 hc3
    rw [not_not] at hc3
    simp only [not_ne_iff] at hc2
    injection h with h'
    subst h'
    dsimp only
    omega

/-- Demonstration block: one opcode, no catch/move-result/move-exception,
valid insertion point, source blocks present, no successors. -/
def demoBlockA : SrcBlock :=
  ⟨0, 1, false, false, false, false, false, false, true, true⟩

def demoOptions : InstrOptions := ⟨false, false⟩

def demoInfoC1 : MethodInfo :=
  (instrument_basic_blocks [demoBlockA] demoOptions 10 8 2 1).getD default

/-- Witness for C1: a one-block method on which the pass completes without
the too-many-blocks fallback. -/
theorem instrument_basic_blocks_block_accounting_witness :
    instrument_basic_blocks [demoBlockA] demoOptions 10 8 2 1 = some demoInfoC1 ∧
      demoInfoC1.too_many_blocks = false ∧
      demoInfoC1.num_instrumented_blocks + demoInfoC1.rejected_blocks.length =
        demoInfoC1.num_non_entry_blocks :=
  ⟨by decide, by decide,
    instrument_basic_blocks_block_accounting [demoBlockA] demoOptions 10 8 2 1
      demoInfoC1 (by decide) (by decide)⟩

/-- C4: when handing out one more bit id would reach `max_num_blocks`, the
whole block list is rejected: `get_blocks_to_instrument` collapses to the
too-many-blocks result, and the pass completes with `too_many_blocks =
true`, zero vectors, zero instrumented blocks, no per-block OR-literal
instructions, no `onMethodExit` calls (only the `onMethodBegin` prologue),
and metadata `instrument` column `1` (method-only tracing). -/
theorem too_many_blocks_fallback
    (blocks : List SrcBlock) (options : InstrOptions)
    (max_num_blocks method_offset final_num_blocks num_terminal_exit_blocks : Nat)
    (h : countInstrumentable blocks options > max_num_blocks) :
    get_blocks_to_instrument blocks max_num_blocks options = ([], 0, true) ∧
      insert_block_coverage_computations
        (get_blocks_to_instrument blocks max_num_blocks options).1 = 0 ∧
      ∃ info, instrument_basic_blocks blocks options max_num_blocks method_offset
          final_num_blocks num_terminal_exit_blocks = some info ∧
        info.too_many_blocks = true ∧
        info.num_vectors = 0 ∧
        info.num_instrumented_blocks = 0 ∧
        info.bit_id_2_block_id = [] ∧
        info.num_exit_calls = 0 ∧
        (get_instrumented_type info).toInt = 1 := by
  have hnone : assignBitIds options max_num_blocks blocks 0 = none :=
    (assignBitIds_none_iff options max_num_blocks blocks 0 (Nat.zero_le _)).2 (by omega)
  have hg : get_blocks_to_instrument blocks max_num_blocks options = ([], 0, true) := by
    simp [get_blocks_to_instrument, hnone]
  refine ⟨hg, by simp [hg, insert_block_coverage_computations], ?_⟩
  refine ⟨{ too_many_blocks := true, offset := method_offset,
            num_non_entry_blocks := final_num_blocks - 1, num_vectors := 0,
            num_exit_calls := 0, num_empty_blocks := 0, num_useless_blocks := 0,
            num_no_source_blocks := 0, num_blocks_too_large := final_num_blocks - 1,
            num_catches := 0, num_instrumented_catches := 0,
            num_instrumented_blocks := 0, bit_id_2_block_id := [],
            rejected_blocks := [] }, ?_, rfl, rfl, rfl, rfl, rfl, rfl⟩
  unfold instrument_basic_blocks
  rw [hg]
  simp [countType, buildIdMaps, ceilDiv16, insert_onMethodExit_calls]

/-- Witness for C4: a single instrumentable block with `max_num_blocks = 0`. -/
theorem too_many_blocks_fallback_witness :
    countInstrumentable [demoBlockA] demoOptions > 0 ∧
      (get_blocks_to_instrument [demoBlockA] 0 demoOptions = ([], 0, true) ∧
        insert_block_coverage_computations
          (get_blocks_to_instrument [demoBlockA] 0 demoOptions).1 = 0 ∧
        ∃ info, instrument_basic_blocks [demoBlockA] demoOptions 0 8 1 0 = some info ∧
          info.too_many_blocks = true ∧
          info.num_vectors = 0 ∧
          info.num_instrumented_blocks = 0 ∧
          info.bit_id_2_block_id = [] ∧
          info.num_exit_calls = 0 ∧
          (get_instrumented_type info).toInt = 1) :=
  ⟨by decide, too_many_blocks_fallback [demoBlockA] demoOptions 0 8 1 0 (by decide)⟩

/-- C10: the instrumenter's cold-start class set is exactly the configured
cold-start entries preceding the first `LDexEndMarker0;`, each with its
last character replaced by `/`; entries after that marker never enter the
set. -/
theorem cold_start_classes_before_end_marker (l : List String) :
    get_cold_start_classes l =
      (l.takeWhile (fun s => s != "LDexEndMarker0;")).map (fun s => s.dropRight 1 ++ "/") := by
  induction l with
  | nil => rfl
  | cons s rest ih =>
    by_cases h : s = "LDexEndMarker0;"
    · simp [get_cold_start_classes, List.takeWhile_cons, h]
    · simp [get_cold_start_classes, List.takeWhile_cons, h, ih]

/-! ## Inter-dex packer: data model (`InterDex.cpp`) -/

/-- Class abstraction for the packer: its internal name and its gathered
method/field/type references (`gather_methods/fields/types`), identified by
numeric ids.  Plugins (an optional extension point) are not modelled, so
`gather_refs` contributes exactly these lists and reports no erased
classes. -/
structure DexCls where
  name : String
  mrefs : List Nat
  frefs : List Nat
  trefs : List Nat
deriving DecidableEq, Repr

instance : Inhabited DexCls := ⟨⟨"", [], [], []⟩⟩

/-- Mirror of `is_canary`: name starts with `Lsecondary/dex`. -/
def is_canary (clazz : DexCls) : Bool := "Lsecondary/dex".isPrefixOf clazz.name

/-- Mirror of `struct DexInfo` of `InterDex.h`. -/
structure DexInfo where
  primary : Bool := false
  coldstart : Bool := false
  extended : Bool := false
  scroll : Bool := false
  background : Bool := false
  betamap_ordered : Bool := false
deriving DecidableEq, Repr

/-- Set union on id lists, modelling insertion into an `std::unordered_set`
of references (duplicates collapse; membership is what the caps count). -/
def refUnion (xs ys : List Nat) : List Nat :=
  ys.foldl (fun acc y => if y ∈ acc then acc else acc ++ [y]) xs

/-- Modelled from the spec: `DexesStructure`/`DexStructure` are repository
code outside `src/` (consumed as a service, spec sections 3 and 6).  The
accumulator tracks finished DEXes, the classes and reference sets of the
DEX being filled, and all classes added so far; `add_class_to_current_dex`
refuses (returns `false`) when an addition would push a reference count
over the corresponding cap, `add_class_no_checks` adds unconditionally,
and `end_dex` closes the current DEX. -/
structure DexesStructure where
  mrefs_cap : Nat
  frefs_cap : Nat
  trefs_cap : Nat
  dexes : List (List DexCls) := []
  current : List DexCls := []
  cur_mrefs : List Nat := []
  cur_frefs : List Nat := []
  cur_trefs : List Nat := []
  seen : List DexCls := []
deriving DecidableEq, Repr

def DexesStructure.num_dexes (ds : DexesStructure) : Nat := ds.dexes.length

def DexesStructure.has_class (ds : DexesStructure) (clazz : DexCls) : Bool :=
  decide (clazz ∈ ds.seen)

def DexesStructure.add_class_no_checks (ds : DexesStructure) (clazz : DexCls) :
    DexesStructure :=
  { ds with
    current := ds.current ++ [clazz]
    cur_mrefs := refUnion ds.cur_mrefs clazz.mrefs
    cur_frefs := refUnion ds.cur_frefs clazz.frefs
    cur_trefs := refUnion ds.cur_trefs clazz.trefs
    seen := ds.seen ++ [clazz] }

def DexesStructure.add_class_to_current_dex (ds : DexesStructure) (clazz : DexCls) :
    DexesStructure × Bool :=
  let m := refUnion ds.cur_mrefs clazz.mrefs
  let f := refUnion ds.cur_frefs clazz.frefs
  let t := refUnion ds.cur_trefs clazz.trefs
  if m.length > ds.mrefs_cap || f.length > ds.frefs_cap || t.length > ds.trefs_cap then
    (ds, false)
  else
    ({ ds with current := ds.current ++ [clazz], cur_mrefs := m, cur_frefs := f,
               cur_trefs := t, seen := ds.seen ++ [clazz] }, true)

def DexesStructure.end_dex (ds : DexesStructure) : DexesStructure :=
  { ds with dexes := ds.dexes ++ [ds.current], current := [],
            cur_mrefs := [], cur_frefs := [], cur_trefs := [] }

/-- Per-run state of the `InterDex` pass: the dex accumulator plus the
member flags of `InterDex` that `emit_interdex_classes`, `emit_class` and
`flush_out_dex` read and write.  The cross-dex relocator and the plugin
list are not configured (empty), matching their absence from `src/`. -/
structure InterDexSt where
  dexes_structure : DexesStructure
  emit_canaries : Bool := false
  emitting_scroll_set : Bool := false
  emitting_bg_set : Bool := false
  emitted_bg_set : Bool := false
  emitting_extended : Bool := false
  dex_infos : List (String × DexInfo) := []
  perf_marked : List DexCls := []
deriving DecidableEq, Repr

/-- Mirror of `CANARY_CLASS_FORMAT` (`Lsecondary/dex%02d/Canary;`). -/
def canaryName (n : Nat) : String :=
  "Lsecondary/dex" ++ (if n < 10 then "0" else "") ++ toString n ++ "/Canary;"

/-- Mirror of `InterDex::flush_out_dex`: record and add the canary (when
canaries are on and this is not the primary DEX), close the current DEX,
then reset the carried `DexInfo` flags for the next DEX. -/
def flush_out_dex (st : InterDexSt) (dex_info : DexInfo) : InterDexSt × DexInfo :=
  let dexnum := st.dexes_structure.num_dexes
  let st1 :=
    if st.emit_canaries && !dex_info.primary then
      { st with
        dexes_structure :=
          st.dexes_structure.add_class_no_checks ⟨canaryName dexnum, [], [], []⟩
        dex_infos := st.dex_infos ++ [(canaryName dexnum, dex_info)] }
    else st
  let st2 := { st1 with dexes_structure := st1.dexes_structure.end_dex }
  let dex_info' :=
    { dex_info with
      scroll := dex_info.scroll && st2.emitting_scroll_set
      background := dex_info.background && st2.emitting_bg_set
      extended := dex_info.extended && st2.emitting_extended
      betamap_ordered := false }
  (st2, dex_info')

/-- Result of `emit_class`: updated pass state, the (possibly
flush-reset) `DexInfo` that was passed by reference, and the return value. -/
structure EmitResult where
  st : InterDexSt
  dex_info : DexInfo
  emitted : Bool
deriving DecidableEq, Repr

/-- Mirror of `InterDex::emit_class`.  `should_skip` stands for
`should_skip_class_due_to_plugin`.  With no plugins configured,
`gather_refs` contributes exactly the class's own reference lists and no
erased classes. -/
def emit_class (should_skip : DexCls → Bool) (st : InterDexSt) (dex_info : DexInfo)
    (clazz : DexCls) (check_if_skip : Bool) (perf_sensitive : Bool) : EmitResult :=
  if is_canary clazz then ⟨st, dex_info, false⟩
  else if st.dexes_structure.has_class clazz then ⟨st, dex_info, false⟩
  else if check_if_skip && should_skip clazz then ⟨st, dex_info, false⟩
  else
    let st1 :=
      if perf_sensitive then { st with perf_marked := st.perf_marked ++ [clazz] } else st
    let pr := st1.dexes_structure.add_class_to_current_dex clazz
    if pr.2 then ⟨{ st1 with dexes_structure := pr.1 }, dex_info, true⟩
    else
      let fl := flush_out_dex st1 dex_info
      ⟨{ fl.1 with
          dexes_structure := fl.1.dexes_structure.add_class_no_checks clazz },
        fl.2, true⟩

/-! ## Inter-dex packer: `emit_class` and `flush_out_dex` theorems -/

/-- Helper: when the checked add reports success, the class is in the
current dex of the returned accumulator. -/
theorem add_class_mem_current (ds : DexesStructure) (clazz : DexCls) :
    (ds.add_class_to_current_dex clazz).2 = false ∨
      clazz ∈ (ds.add_class_to_current_dex clazz).1.current := by
  unfold DexesStructure.add_class_to_current_dex
  dsimp only
  split
  · exact Or.inl rfl
  · exact Or.inr (by simp)

/-- Helper: flushing and then adding without checks always places the
class in the (fresh) current dex. -/
theorem flush_add_mem (st : InterDexSt) (di : DexInfo) (clazz : DexCls) :
    clazz ∈ ((flush_out_dex st di).1.dexes_structure.add_class_no_checks clazz).current := by
  unfold flush_out_dex DexesStructure.add_class_no_checks DexesStructure.end_dex
  dsimp only
  simp

/-- C8: a class that is not a canary, is not already placed, and is not
plugin-skipped (when skip checking is on) is always emitted: `emit_class`
returns `true` and the class lands in the dex being filled.  No hypothesis
restricts the class's own reference counts: on overflow the current DEX is
flushed and the class enters the fresh DEX through the unchecked add. -/
theorem emit_class_places_class (should_skip : DexCls → Bool)
    (st : InterDexSt) (dex_info : DexInfo) (clazz : DexCls)
    (check_if_skip perf_sensitive : Bool)
    (h1 : is_canary clazz = false)
    (h2 : st.dexes_structure.has_class clazz = false)
    (h3 : check_if_skip = true → should_skip clazz = false) :
    (emit_class should_skip st dex_info clazz check_if_skip perf_sensitive).emitted = true ∧
      clazz ∈ (emit_class should_skip st dex_info clazz check_if_skip
        perf_sensitive).st.dexes_structure.current := by
  have h3' : (check_if_skip && should_skip clazz) = false := by
    cases check_if_skip with
    | false => rfl
    | true => simp [h3 rfl]
  unfold emit_class
  rw [h1, h2, h3']
  simp only [Bool.false_eq_true, if_false]
  cases perf_sensitive
  all_goals
    simp only [Bool.false_eq_true, eq_self_iff_true, if_false, if_true]
    try dsimp only
    rcases hadd : st.dexes_structure.add_class_to_current_dex clazz with ⟨ds2, fits⟩
    cases fits with
    | true =>
      refine ⟨rfl, ?_⟩
      show clazz ∈ ds2.current
      have hm := add_class_mem_current st.dexes_structure clazz
      rw [hadd] at hm
      rcases hm with hm | hm
      · simp at hm
      · simpa using hm
    | false =>
      refine ⟨rfl, ?_⟩
      exact flush_add_mem _ _ _

/-- Packer demo state: tiny caps, empty accumulator. -/
def demoSt : InterDexSt :=
  { dexes_structure := { mrefs_cap := 1, frefs_cap := 1, trefs_cap := 1 } }

/-- Demo class whose own method refs already exceed every cap. -/
def demoFat : DexCls := ⟨"LFat;", [1, 2, 3], [], []⟩

/-- Witness for C8: an over-cap class still gets placed. -/
theorem emit_class_places_class_witness :
    is_canary demoFat = false ∧
      demoSt.dexes_structure.has_class demoFat = false ∧
      ((emit_class (fun _ => false) demoSt { } demoFat true false).emitted = true ∧
        demoFat ∈ (emit_class (fun _ => false) demoSt { } demoFat
          true false).st.dexes_structure.current) :=
  ⟨by decide, by decide,
    emit_class_places_class (fun _ => false) demoSt { } demoFat true false
      (by decide) (by decide) (fun _ => rfl)⟩

/-- C9: `flush_out_dex` resets the carried `DexInfo`: `betamap_ordered`
comes back `false`; `scroll`, `background` and `extended` survive only
while the corresponding set is still being emitted; `primary` and
`coldstart` pass through unchanged. -/
theorem flush_out_dex_resets_dex_info (st : InterDexSt) (di : DexInfo) :
    (flush_out_dex st di).2.betamap_ordered = false ∧
      (flush_out_dex st di).2.scroll = (di.scroll && st.emitting_scroll_set) ∧
      (flush_out_dex st di).2.background = (di.background && st.emitting_bg_set) ∧
      (flush_out_dex st di).2.extended = (di.extended && st.emitting_extended) ∧
      (flush_out_dex st di).2.primary = di.primary ∧
      (flush_out_dex st di).2.coldstart = di.coldstart := by
  unfold flush_out_dex
  dsimp only
  split <;> simp

/-! ## Inter-dex packer: coldstart emission state machine (`emit_interdex_classes`) -/

/-- Entry of the prepared coldstart list, as `emit_interdex_classes`
dispatches on it: a type with no class whose name matches one of the
marker prefixes (or is one of the recorded end markers), a type with no
class matching nothing, or a class entry tagged with its membership in
`unreferenced_classes`. -/
inductive CEntry where
  | scrollStart
  | scrollEnd
  | bgStart
  | bgEnd
  | endMarker (isColdStartEnd : Bool)
  | otherMissing
  | classEntry (cls : DexCls) (unreferenced : Bool)
deriving DecidableEq, Repr

/-- Record of one `flush_out_dex` call during coldstart emission:
whether the flush was triggered by an end marker (rather than by a DEX
overflow inside `emit_class`), and the scroll/background emitting flags
at that moment. -/
structure FlushRec where
  byEndMarker : Bool
  scrollOpen : Bool
  bgOpen : Bool
deriving DecidableEq, Repr

/-- One iteration of the `emit_interdex_classes` walk.  Each
`always_assert_log` of the marker protocol becomes a `none`; a `some`
result carries the successor state, the carried `DexInfo`, and the flushes
performed. -/
def emit_interdex_step (should_skip : DexCls → Bool) (st : InterDexSt) (di : DexInfo) :
    CEntry → Option (InterDexSt × DexInfo × List FlushRec)
  | .scrollStart =>
    if st.emitting_scroll_set then none
    else if st.emitting_bg_set then none
    else some ({ st with emitting_scroll_set := true }, { di with scroll := true }, [])
  | .scrollEnd =>
    if !st.emitting_scroll_set then none
    else some ({ st with emitting_scroll_set := false }, di, [])
  | .bgStart =>
    if st.emitting_bg_set then none
    else if st.emitting_scroll_set then none
    else some ({ st with emitting_bg_set := true }, { di with background := true }, [])
  | .bgEnd =>
    if !st.emitting_bg_set then none
    else some ({ st with emitting_bg_set := false, emitted_bg_set := true }, di, [])
  | .endMarker isColdStartEnd =>
    if st.emitting_scroll_set then none
    else if st.emitting_bg_set then none
    else
      let flushRec : FlushRec := ⟨true, st.emitting_scroll_set, st.emitting_bg_set⟩
      let fl := flush_out_dex st di
      let di' := if isColdStartEnd then { fl.2 with coldstart := false } else fl.2
      some (fl.1, di', [flushRec])
  | .otherMissing => some (st, di, [])
  | .classEntry cls unreferenced =>
    if unreferenced then some (st, di, [])
    else
      let pr : InterDexSt × DexInfo :=
        if st.emitted_bg_set then
          ({ st with emitted_bg_set := false, emitting_extended := true },
           { di with extended := true })
        else (st, di)
      let st1 := pr.1
      let di1 := { pr.2 with betamap_ordered := true }
      let numBefore := st1.dexes_structure.num_dexes
      let r := emit_class should_skip st1 di1 cls true true
      let recs : List FlushRec :=
        if r.st.dexes_structure.num_dexes ≠ numBefore then
          [⟨false, st1.emitting_scroll_set, st1.emitting_bg_set⟩]
        else []
      some (r.st, r.dex_info, recs)

/-- Main loop of `emit_interdex_classes` over the prepared entries. -/
def emit_interdex_go (should_skip : DexCls → Bool) :
    List CEntry → InterDexSt → DexInfo → Option (InterDexSt × DexInfo × List FlushRec)
  | [], st, di => some (st, di, [])
  | e :: rest, st, di =>
    match emit_interdex_step should_skip st di e with
    | none => none
    | some (st1, di1, recs) =>
      match emit_interdex_go should_skip rest st1 di1 with
      | none => none
      | some (st2, di2, recs2) => some (st2, di2, recs ++ recs2)

/-- Second loop of `emit_interdex_classes`: emit the classes the coldstart
walk skipped because they were in `unreferenced_classes` (not
perf-sensitive). -/
def emit_unreferenced (should_skip : DexCls → Bool) :
    List CEntry → InterDexSt → DexInfo → InterDexSt × DexInfo × List FlushRec
  | [], st, di => (st, di, [])
  | .classEntry cls true :: rest, st, di =>
    let numBefore := st.dexes_structure.num_dexes
    let r := emit_class should_skip st di cls true false
    let recs : List FlushRec :=
      if r.st.dexes_structure.num_dexes ≠ numBefore then
        [⟨false, st.emitting_scroll_set, st.emitting_bg_set⟩]
      else []
    let t := emit_unreferenced should_skip rest r.st r.dex_info
    (t.1, t.2.1, recs ++ t.2.2)
  | _ :: rest, st, di => emit_unreferenced should_skip rest st di

/-- Mirror of `InterDex::emit_interdex_classes`: early return on an empty
list, set `coldstart`, walk the entries, emit the unreferenced leftovers,
then the two final unterminated-marker `always_assert`s, and reset
`m_emitting_extended`. -/
def emit_interdex_classes (should_skip : DexCls → Bool) (st : InterDexSt) (di : DexInfo)
    (entries : List CEntry) : Option (InterDexSt × DexInfo × List FlushRec) :=
  if entries.isEmpty then some (st, di, [])
  else
    let di0 := { di with coldstart := true }
    match emit_interdex_go should_skip entries st di0 with
    | none => none
    | some (st1, di1, recs1) =>
      let t := emit_unreferenced should_skip entries st1 di1
      if t.1.emitting_scroll_set then none
      else if t.1.emitting_bg_set then none
      else some ({ t.1 with emitting_extended := false }, t.2.1, recs1 ++ t.2.2)

/-- Helper: membership in an overflow-flush record list implies the record
is not an end-marker flush. -/
theorem mem_flushrec_ite {c : Prop} [Decidable c] {a b : Bool} {r : FlushRec}
    (hr : r ∈ (if c then [(⟨false, a, b⟩ : FlushRec)] else [])) : r.byEndMarker = false := by
  split at hr
  · simp at hr
    rw [hr]
  · simp at hr

/-- Helper: a single step only ever records an end-marker flush with both
the scroll and the background set closed. -/
theorem step_end_flush_closed (should_skip : DexCls → Bool)
    (st : InterDexSt) (di : DexInfo) (e : CEntry)
    (out : InterDexSt × DexInfo × List FlushRec)
    (h : emit_interdex_step should_skip st di e = some out) :
    ∀ r ∈ out.2.2, r.byEndMarker = true → r.scrollOpen = false ∧ r.bgOpen = false := by
  cases e with
  | scrollStart =>
    simp only [emit_interdex_step] at h
    split at h
    · exact Option.noConfusion h
    split at h
    · exact Option.noConfusion h
    injection h with h'
    rw [← h']
    intro r hr
    simp at hr
  | scrollEnd =>
    simp only [emit_interdex_step] at h
    split at h
    · exact Option.noConfusion h
    injection h with h'
    rw [← h']
    intro r hr
    simp at hr
  | bgStart =>
    simp only [emit_interdex_step] at h
    split at h
    · exact Option.noConfusion h
    split at h
    · exact Option.noConfusion h
    injection h with h'
    rw [← h']
    intro r hr
    simp at hr
  | bgEnd =>
    simp only [emit_interdex_step] at h
    split at h
    · exact Option.noConfusion h
    injection h with h'
    rw [← h']
    intro r hr
    simp at hr
  | endMarker isLast =>
    simp only [emit_interdex_step] at h
    split at h
    · exact Option.noConfusion h
    split at h
    · exact Option.noConfusion h
    rename_i hs hb
    injection h with h'
    rw [← h']
    intro r hr _
    simp at hr
    rw [hr]
    simp only [Bool.not_eq_true] at hs hb
    exact ⟨hs, hb⟩
  | otherMissing =>
    simp only [emit_interdex_step] at h
    injection h with h'
    rw [← h']
    intro r hr
    simp at hr
  | classEntry cls unreferenced =>
    simp only [emit_interdex_step] at h
    split at h
    · injection h with h'
      rw [← h']
      intro r hr
      simp at hr
    · dsimp only at h
      injection h with h'
      rw [← h']
      intro r hr hbe
      dsimp only at hr
      rw [mem_flushrec_ite hr] at hbe
      exact Bool.noConfusion hbe

/-- Helper: along any successful walk of the coldstart entries, every
end-marker flush happens with scroll and background sets closed. -/
theorem go_end_flush_closed (should_skip : DexCls → Bool) :
    ∀ (entries : List CEntry) (st : InterDexSt) (di : DexInfo)
      (out : InterDexSt × DexInfo × List FlushRec),
      emit_interdex_go should_skip entries st di = some out →
      ∀ r ∈ out.2.2, r.byEndMarker = true → r.scrollOpen = false ∧ r.bgOpen = false := by
  intro entries
  induction entries with
  | nil =>
    intro st di out h r hr
    injection h with h'
    rw [← h'] at hr
    simp at hr
  | cons e rest ih =>
    intro st di out h r hr hbe
    unfold emit_interdex_go at h
    cases hstep : emit_interdex_step should_skip st di e with
    | none =>
      rw [hstep] at h
      exact Option.noConfusion h
    | some p =>
      rcases p with ⟨st1, di1, recs⟩
      rw [hstep] at h
      dsimp only at h
      cases hgo : emit_interdex_go should_skip rest st1 di1 with
      | none =>
        rw [hgo] at h
        exact Option.noConfusion h
      | some q =>
        rcases q with ⟨st2, di2, recs2⟩
        rw [hgo] at h
        dsimp only at h
        injection h with h'
        rw [← h'] at hr
        rw [List.mem_append] at hr
        rcases hr with hr | hr
        · exact step_end_flush_closed should_skip st di e _ hstep r hr hbe
        · exact ih st1 di1 _ hgo r hr hbe

/-- Helper: the unreferenced-classes loop records only overflow flushes. -/
theorem unref_recs_not_end (should_skip : DexCls → Bool) :
    ∀ (entries : List CEntry) (st : InterDexSt) (di : DexInfo),
      ∀ r ∈ (emit_unreferenced should_skip entries st di).2.2, r.byEndMarker = false := by
  intro entries
  induction entries with
  | nil =>
    intro st di r hr
    simp [emit_unreferenced] at hr
  | cons e rest ih =>
    intro st di r hr
    cases e with
    | classEntry cls unreferenced =>
      cases unreferenced with
      | true =>
        unfold emit_unreferenced at hr
        dsimp only at hr
        rw [List.mem_append] at hr
        rcases hr with hr | hr
        · exact mem_flushrec_ite hr
        · exact ih _ _ r hr
      | false => exact ih _ _ r (by simpa [emit_unreferenced] using hr)
    | scrollStart => exact ih _ _ r (by simpa [emit_unreferenced] using hr)
    | scrollEnd => exact ih _ _ r (by simpa [emit_unreferenced] using hr)
    | bgStart => exact ih _ _ r (by simpa [emit_unreferenced] using hr)
    | bgEnd => exact ih _ _ r (by simpa [emit_unreferenced] using hr)
    | endMarker isLast => exact ih _ _ r (by simpa [emit_unreferenced] using hr)
    | otherMissing => exact ih _ _ r (by simpa [emit_unreferenced] using hr)

/-- C2: the coldstart marker protocol is fatally enforced.  Each of the
six precondition violations makes the walk abort (`none`), and as a
consequence a successful `emit_interdex_classes` run never flushes a DEX
at an end marker while a scroll or background set is open, and never
finishes the entry list with one still open. -/
theorem coldstart_marker_protocol (should_skip : DexCls → Bool) :
    (∀ st di, (st.emitting_scroll_set = true ∨ st.emitting_bg_set = true) →
        emit_interdex_step should_skip st di .scrollStart = none) ∧
    (∀ st di, st.emitting_scroll_set = false →
        emit_interdex_step should_skip st di .scrollEnd = none) ∧
    (∀ st di, (st.emitting_bg_set = true ∨ st.emitting_scroll_set = true) →
        emit_interdex_step should_skip st di .bgStart = none) ∧
    (∀ st di, st.emitting_bg_set = false →
        emit_interdex_step should_skip st di .bgEnd = none) ∧
    (∀ st di isColdStartEnd, (st.emitting_scroll_set = true ∨ st.emitting_bg_set = true) →
        emit_interdex_step should_skip st di (.endMarker isColdStartEnd) = none) ∧
    (∀ entries st di out, entries ≠ [] →
        emit_interdex_classes should_skip st di entries = some out →
          (out.1.emitting_scroll_set = false ∧ out.1.emitting_bg_set = false) ∧
          ∀ r ∈ out.2.2, r.byEndMarker = true →
            r.scrollOpen = false ∧ r.bgOpen = false) := by
  refine ⟨?_, ?_, ?_, ?_, ?_, ?_⟩
  · intro st di hopen
    rcases hopen with hs | hb
    · simp [emit_interdex_step, hs]
    · simp [emit_interdex_step, hb]
  · intro st di hs
    simp [emit_interdex_step, hs]
  · intro st di hopen
    rcases hopen with hb | hs
    · simp [emit_interdex_step, hb]
    · simp [emit_interdex_step, hs]
  · intro st di hb
    simp [emit_interdex_step, hb]
  · intro st di isLast hopen
    rcases hopen with hs | hb
    · simp [emit_interdex_step, hs]
    · simp [emit_interdex_step, hb]
  · intro entries st di out hne h
    unfold emit_interdex_classes at h
    rw [if_neg (by simpa using hne)] at h
    dsimp only at h
    cases hgo : emit_interdex_go should_skip entries st { di with coldstart := true } with
    | none =>
      rw [hgo] at h
      exact Option.noConfusion h
    | some p =>
      rcases p with ⟨st1, di1, recs1⟩
      rw [hgo] at h
      dsimp only at h
      split at h
      · exact Option.noConfusion h
      split at h
      · exact Option.noConfusion h
      rename_i hs hb
      injection h with h'
      rw [← h']
      simp only [Bool.not_eq_true] at hs hb
      refine ⟨⟨hs, hb⟩, ?_⟩
      intro r hr hbe
      rw [List.mem_append] at hr
      rcases hr with hr | hr
      · exact go_end_flush_closed should_skip entries st _ _ hgo r hr hbe
      · have := unref_recs_not_end should_skip entries st1 di1 r hr
        rw [this] at hbe
        exact Bool.noConfusion hbe

instance : Inhabited DexInfo := ⟨{ }⟩

instance : Inhabited InterDexSt :=
  ⟨{ dexes_structure := { mrefs_cap := 0, frefs_cap := 0, trefs_cap := 0 } }⟩

/-- Demo pass state with a scroll set currently open. -/
def demoStScrollOpen : InterDexSt := { demoSt with emitting_scroll_set := true }

/-- Result of a successful demo coldstart run consisting of a single
coldstart end marker. -/
def demoColdstartOut : InterDexSt × DexInfo × List FlushRec :=
  (emit_interdex_classes (fun _ => false) demoSt { } [CEntry.endMarker true]).getD default

/-- Witness for C2: a scroll-start under an open scroll set aborts, and a
successful run's end-marker flush happens with both sets closed. -/
theorem coldstart_marker_protocol_witness :
    (demoStScrollOpen.emitting_scroll_set = true ∨ demoStScrollOpen.emitting_bg_set = true) ∧
      emit_interdex_step (fun _ => false) demoStScrollOpen { } .scrollStart = none ∧
      ([CEntry.endMarker true] ≠ ([] : List CEntry)) ∧
      emit_interdex_classes (fun _ => false) demoSt { } [CEntry.endMarker true] =
        some demoColdstartOut ∧
      ((demoColdstartOut.1.emitting_scroll_set = false ∧
          demoColdstartOut.1.emitting_bg_set = false) ∧
        ∀ r ∈ demoColdstartOut.2.2, r.byEndMarker = true →
          r.scrollOpen = false ∧ r.bgOpen = false) :=
  ⟨Or.inl (by decide),
    (coldstart_marker_protocol (fun _ => false)).1 demoStScrollOpen { } (Or.inl (by decide)),
    by decide, by decide,
    (coldstart_marker_protocol (fun _ => false)).2.2.2.2.2
      [CEntry.endMarker true] demoSt { } demoColdstartOut (by decide) (by decide)⟩

/-! ## Inter-dex packer: remaining-classes emission loop (`emit_remaining_classes`) -/

/-- Modelled from the spec: `CrossDexRefMinimizer` (spec sections 3 and
4.3) is repository code outside `src/`; `emit_remaining_classes` consumes
it through this interface of pure operations over an abstract minimizer
state `M` (`empty`, `worst`, `front`, `get_unapplied_refs`,
`get_applied_refs`, `erase`). -/
structure MinimizerOps (M : Type) where
  isEmpty : M → Bool
  worst : M → DexCls
  front : M → DexCls
  unapplied_refs : M → DexCls → Nat
  applied_refs : M → Nat
  erase : M → DexCls → Bool → Bool → M

/-- Record of one iteration of the minimized emission loop: the loop
variables on entry (`pick_worst_in`, the minimizer state, `dexnum`), the
class chosen, the outcome of `emit_class`, and the loop variables it
leaves behind. -/
structure IterRec (M : Type) where
  pick_worst_in : Bool
  m_in : M
  dexnum_in : Nat
  chosen : DexCls
  emitted : Bool
  overflowed : Bool
  dexnum_out : Nat
  pick_worst_out : Bool
deriving DecidableEq, Repr

/-- Mirror of the `while (!m_cross_dex_ref_minimizer.empty())` loop of
`emit_remaining_classes` (fuel-bounded).  With no plugins there are no
erased classes to re-insert, and no cross-dex relocator is configured. -/
def emit_remaining_loop {M : Type} (ops : MinimizerOps M) (should_skip : DexCls → Bool) :
    Nat → InterDexSt → DexInfo → M → Bool → Nat →
    InterDexSt × DexInfo × M × List (IterRec M)
  | 0, st, di, m, _, _ => (st, di, m, [])
  | fuel + 1, st, di, m, pick_worst, dexnum =>
    if ops.isEmpty m then (st, di, m, [])
    else
      let clsOpt : Option DexCls :=
        if pick_worst then
          if ops.unapplied_refs m (ops.worst m) > ops.applied_refs m then
            some (ops.worst m)
          else none
        else none
      let cls := clsOpt.getD (ops.front m)
      let r := emit_class should_skip st di cls false false
      let new_dexnum := r.st.dexes_structure.num_dexes
      let overflowed : Bool := dexnum != new_dexnum
      let m1 := ops.erase m cls r.emitted overflowed
      let pick_worst1 := (pick_worst && !r.emitted) || overflowed
      let t := emit_remaining_loop ops should_skip fuel r.st r.dex_info m1 pick_worst1 new_dexnum
      (t.1, t.2.1, t.2.2.1,
        ⟨pick_worst, m, dexnum, cls, r.emitted, overflowed, new_dexnum, pick_worst1⟩ :: t.2.2.2)

/-- Mirror of `InterDex::emit_remaining_classes`: the simple scope-order
mode when the minimizer is off, otherwise the minimized loop starting
with `pick_worst = true` and the current dex count. -/
def emit_remaining_classes {M : Type} (ops : MinimizerOps M) (should_skip : DexCls → Bool)
    (minimize_cross_dex_refs : Bool) (scope : List DexCls) (fuel : Nat)
    (st : InterDexSt) (di : DexInfo) (m : M) :
    InterDexSt × DexInfo × M × List (IterRec M) :=
  if !minimize_cross_dex_refs then
    let p := scope.foldl (fun (p : InterDexSt × DexInfo) cls =>
      let r := emit_class should_skip p.1 p.2 cls true false
      (r.st, r.dex_info)) (st, di)
    (p.1, p.2, m, [])
  else
    emit_remaining_loop ops should_skip fuel st di m true st.dexes_structure.num_dexes

/-- Helper: `emit_class` either leaves the dex count unchanged or, on an
overflow flush, increases it by exactly one. -/
theorem emit_class_num_dexes (should_skip : DexCls → Bool) (st : InterDexSt)
    (di : DexInfo) (clazz : DexCls) (check_if_skip perf_sensitive : Bool) :
    (emit_class should_skip st di clazz check_if_skip
        perf_sensitive).st.dexes_structure.num_dexes = st.dexes_structure.num_dexes ∨
      (emit_class should_skip st di clazz check_if_skip
        perf_sensitive).st.dexes_structure.num_dexes = st.dexes_structure.num_dexes + 1 := by
  unfold emit_class
  split
  · exact Or.inl rfl
  split
  · exact Or.inl rfl
  split
  · exact Or.inl rfl
  cases perf_sensitive
  all_goals
    simp only [Bool.false_eq_true, eq_self_iff_true, if_false, if_true]
    try dsimp only
    rcases hadd : st.dexes_structure.add_class_to_current_dex clazz with ⟨ds2, fits⟩
    cases fits with
    | true =>
      left
      show ds2.num_dexes = st.dexes_structure.num_dexes
      unfold DexesStructure.add_class_to_current_dex at hadd
      dsimp only at hadd
      split at hadd
      · exact absurd (congrArg Prod.snd hadd) (by simp)
      · have hfst := congrArg Prod.fst hadd
        dsimp only at hfst
        rw [← hfst]
        rfl
    | false =>
      right
      dsimp only
      simp only [Bool.false_eq_true, if_false]
      unfold flush_out_dex DexesStructure.add_class_no_checks DexesStructure.end_dex
        DexesStructure.num_dexes
      dsimp only
      split <;> simp

/-- Helper: trace invariant of the minimized emission loop, for runs whose
`dexnum` argument is the current dex count (as every call site arranges). -/
theorem emit_remaining_loop_trace {M : Type} (ops : MinimizerOps M)
    (should_skip : DexCls → Bool) :
    ∀ (fuel : Nat) (st : InterDexSt) (di : DexInfo) (m : M) (pick_worst : Bool) (dexnum : Nat),
      dexnum = st.dexes_structure.num_dexes →
      ∀ itr ∈ (emit_remaining_loop ops should_skip fuel st di m pick_worst dexnum).2.2.2,
        (itr.chosen = if itr.pick_worst_in = true ∧
              ops.unapplied_refs itr.m_in (ops.worst itr.m_in) > ops.applied_refs itr.m_in
            then ops.worst itr.m_in else ops.front itr.m_in) ∧
          itr.pick_worst_out = ((itr.pick_worst_in && !itr.emitted) || itr.overflowed) ∧
          (itr.overflowed = true ↔ itr.dexnum_in < itr.dexnum_out) := by
  intro fuel
  induction fuel with
  | zero =>
    intro st di m pw dn hdn itr hitr
    simp [emit_remaining_loop] at hitr
  | succ fuel ih =>
    intro st di m pw dn hdn itr hitr
    unfold emit_remaining_loop at hitr
    split at hitr
    · simp at hitr
    · dsimp only at hitr
      rw [List.mem_cons] at hitr
      rcases hitr with hitr | hitr
      · subst hitr
        refine ⟨?_, rfl, ?_⟩
        · dsimp only
          cases pw with
          | false => simp
          | true =>
            by_cases hcmp : ops.unapplied_refs m (ops.worst m) > ops.applied_refs m
            · simp [hcmp]
            · simp [hcmp]
        · dsimp only
          have hnd := emit_class_num_dexes should_skip st di
            ((if pw = true then
                if ops.unapplied_refs m (ops.worst m) > ops.applied_refs m then
                  some (ops.worst m)
                else none
              else none).getD (ops.front m)) false false
          rw [← hdn] at hnd
          constructor
          · intro hb
            rw [bne_iff_ne] at hb
            omega
          · intro hlt
            rw [bne_iff_ne]
            omega
      · exact ih _ _ _ _ _ rfl itr hitr

/-- C5: in the minimized remaining-classes loop, each iteration emits the
worst class exactly when `pick_worst` holds and the worst class's
unapplied refs exceed the applied refs, otherwise the front class; after
the emission attempt `pick_worst` becomes `(pick_worst ∧ ¬emitted) ∨
overflowed`, and `overflowed` holds exactly when `emit_class` increased
the number of dexes. -/
theorem emit_remaining_classes_policy {M : Type} (ops : MinimizerOps M)
    (should_skip : DexCls → Bool) (scope : List DexCls) (fuel : Nat)
    (st : InterDexSt) (di : DexInfo) (m : M) (itr : IterRec M)
    (hitr : itr ∈ (emit_remaining_classes ops should_skip true scope fuel st di m).2.2.2) :
    (itr.chosen = if itr.pick_worst_in = true ∧
          ops.unapplied_refs itr.m_in (ops.worst itr.m_in) > ops.applied_refs itr.m_in
        then ops.worst itr.m_in else ops.front itr.m_in) ∧
      itr.pick_worst_out = ((itr.pick_worst_in && !itr.emitted) || itr.overflowed) ∧
      (itr.overflowed = true ↔ itr.dexnum_in < itr.dexnum_out) := by
  unfold emit_remaining_classes at hitr
  simp only [Bool.not_true, Bool.false_eq_true, if_false] at hitr
  exact emit_remaining_loop_trace ops should_skip fuel st di m true _ rfl itr hitr

/-- Demo class for the minimizer loop witness. -/
def demoClsA : DexCls := ⟨"LA;", [], [], []⟩

/-- Demo minimizer over a plain worklist of classes. -/
def demoOps : MinimizerOps (List DexCls) :=
  { isEmpty := fun m => m.isEmpty
    worst := fun m => m.headD ⟨"", [], [], []⟩
    front := fun m => m.headD ⟨"", [], [], []⟩
    unapplied_refs := fun _ c => c.mrefs.length
    applied_refs := fun _ => 0
    erase := fun m c _ _ => m.filter (fun x => x ≠ c) }

/-- The single iteration record the demo run produces. -/
def demoIterRec : IterRec (List DexCls) :=
  ⟨true, [demoClsA], 0, demoClsA, true, false, 0, false⟩

/-- Witness for C5: one concrete iteration of the minimized loop. -/
theorem emit_remaining_classes_policy_witness :
    demoIterRec ∈ (emit_remaining_classes demoOps (fun _ => false) true [] 2
        demoSt { } [demoClsA]).2.2.2 ∧
      ((demoIterRec.chosen = if demoIterRec.pick_worst_in = true ∧
            demoOps.unapplied_refs demoIterRec.m_in (demoOps.worst demoIterRec.m_in) >
              demoOps.applied_refs demoIterRec.m_in
          then demoOps.worst demoIterRec.m_in else demoOps.front demoIterRec.m_in) ∧
        demoIterRec.pick_worst_out =
          ((demoIterRec.pick_worst_in && !demoIterRec.emitted) || demoIterRec.overflowed) ∧
        (demoIterRec.overflowed = true ↔ demoIterRec.dexnum_in < demoIterRec.dexnum_out)) :=
  ⟨by decide,
    emit_remaining_classes_policy demoOps (fun _ => false) [] 2 demoSt { } [demoClsA]
      demoIterRec (by decide)⟩

/-! ## Keep-rule parser: data model (`ProguardParser.cpp`) -/

/-- Mirror of `enum class TokenType` of the lexer (the lexer itself is
outside `src/`; the kinds are those the parser dispatches on).  Renamings
forced by Lean: `annotationKw` for the `@interface` kind, `extendsToken`,
`includeCmd`, `enumToken` and friends for keyword clashes. -/
inductive TokenType where
  | openCurlyBracket
  | closeCurlyBracket
  | openBracket
  | closeBracket
  | semiColon
  | colon
  | notToken
  | comma
  | slash
  | classToken
  | publicToken
  | final
  | abstract
  | interface
  | enumToken
  | extendsToken
  | implements
  | privateToken
  | protectedToken
  | staticToken
  | volatileToken
  | transient
  | annotationKw
  | annotation_application
  | synchronized
  | native
  | strictfp
  | synthetic
  | bridge
  | varargs
  | identifier
  | arrayType
  | filepath
  | target_version_token
  | filter_pattern
  | includedescriptorclasses_token
  | allowshrinking_token
  | allowoptimization_token
  | allowobfuscation_token
  | comment
  | eof_token
  | unknownToken
  | includeCmd
  | basedirectory
  | injars
  | outjars
  | libraryjars
  | keepdirectories
  | target
  | dontskipnonpubliclibraryclasses
  | keep
  | keepclassmembers
  | keepclasseswithmembers
  | keepnames
  | keepclassmembernames
  | keepclasseswithmembernames
  | assumenosideeffects
  | assumevalues
  | whyareyoukeeping
  | printseeds
  | dontshrink
  | printusage
  | dontoptimize
  | optimizations
  | optimizationpasses
  | allowaccessmodification_token
  | dontobfuscate
  | printmapping
  | repackageclasses
  | keepattributes
  | dontusemixedcaseclassnames_token
  | keeppackagenames
  | dontpreverify_token
  | printconfiguration
  | dontwarn
  | verbose_token
  | command
  | dump
  | mergeinterfacesaggressively
  | returns
deriving DecidableEq, Repr

/-- Modelled from the spec: `Token::is_command` of the lexer (outside
`src/`); a token is command-kind iff its kind is one of the directive
keywords (spec section 3). -/
def TokenType.is_command : TokenType → Bool
  | .includeCmd | .basedirectory | .injars | .outjars | .libraryjars
  | .keepdirectories | .target | .dontskipnonpubliclibraryclasses
  | .keep | .keepclassmembers | .keepclasseswithmembers | .keepnames
  | .keepclassmembernames | .keepclasseswithmembernames
  | .assumenosideeffects | .assumevalues | .whyareyoukeeping
  | .printseeds | .dontshrink | .printusage | .dontoptimize
  | .optimizations | .optimizationpasses | .allowaccessmodification_token
  | .dontobfuscate | .printmapping | .repackageclasses | .keepattributes
  | .dontusemixedcaseclassnames_token | .keeppackagenames
  | .dontpreverify_token | .printconfiguration | .dontwarn
  | .verbose_token | .command | .dump | .mergeinterfacesaggressively
  | .returns => true
  | _ => false

/-- Mirror of `struct Token` (kind, text slice, line). -/
structure Token where
  type : TokenType
  data : String
  line : Nat
deriving DecidableEq, Repr

/-- Kind of the token under the cursor (`TokenIndex::type`); end of the
vector reads as `eof_token` (the lexer always terminates the stream with
one). -/
def curType : List Token → TokenType
  | [] => .eof_token
  | t :: _ => t.type

/-- Text of the token under the cursor (`TokenIndex::data`). -/
def curData : List Token → String
  | [] => ""
  | t :: _ => t.data

/-- Mirror of `TokenIndex::next`: advance one token, then skip comments. -/
def nextTok (toks : List Token) : List Token :=
  (toks.drop 1).dropWhile (fun t => t.type == TokenType.comment)

/-- Dex access flag constants (`DexAccess.h`, outside `src/`; standard DEX
bit values). -/
def ACC_PUBLIC : Nat := 0x1

def ACC_PRIVATE : Nat := 0x2

def ACC_PROTECTED : Nat := 0x4

def ACC_STATIC : Nat := 0x8

def ACC_FINAL : Nat := 0x10

def ACC_VOLATILE : Nat := 0x40

def ACC_TRANSIENT : Nat := 0x80

def ACC_NATIVE : Nat := 0x100

def ACC_INTERFACE : Nat := 0x200

def ACC_ABSTRACT : Nat := 0x400

def ACC_SYNTHETIC : Nat := 0x1000

def ACC_ANNOTATION : Nat := 0x2000

def ACC_ENUM : Nat := 0x4000

def ACC_CONSTRUCTOR : Nat := 0x10000

/-- Mirror of `is_access_flag_set` (`accessFlags & checkingFlag`). -/
def is_access_flag_set (accessFlags checkingFlag : Nat) : Bool :=
  accessFlags &&& checkingFlag != 0

/-- Mirror of `set_access_flag` (`accessFlags | settingFlag`). -/
def set_access_flag (accessFlags settingFlag : Nat) : Nat :=
  accessFlags ||| settingFlag

/-- Modelled from the spec: `MemberSpecification` of
`ProguardConfiguration.h` (outside `src/`), spec section 3; the
assume-return value is `none` when absent. -/
structure MemberSpecification where
  annotationType : String := ""
  requiredSetAccessFlags : Nat := 0
  requiredUnsetAccessFlags : Nat := 0
  name : String := ""
  descriptor : String := ""
  return_value_bool : Option Bool := none
deriving DecidableEq, Repr

/-- One `(pattern, negated)` entry of a class-name list. -/
structure ClassNameSpec where
  name : String
  negated : Bool
deriving DecidableEq, Repr

/-- Modelled from the spec: `ClassSpecification` of
`ProguardConfiguration.h` (outside `src/`), spec section 3. -/
structure ClassSpecification where
  annotationType : String := ""
  setAccessFlags : Nat := 0
  unsetAccessFlags : Nat := 0
  classNames : List ClassNameSpec := []
  extendsAnnotationType : String := ""
  extendsClassName : String := ""
  fieldSpecifications : List MemberSpecification := []
  methodSpecifications : List MemberSpecification := []
deriving DecidableEq, Repr

instance : Inhabited ClassSpecification := ⟨{ }⟩

/-- Modelled from the spec: `KeepSpec` of `ProguardConfiguration.h`
(outside `src/`), spec section 3. -/
structure KeepSpec where
  mark_classes : Bool := false
  mark_conditionally : Bool := false
  allowshrinking : Bool := false
  allowoptimization : Bool := false
  allowobfuscation : Bool := false
  includedescriptorclasses : Bool := false
  source_filename : String := ""
  source_line : Nat := 0
  class_spec : ClassSpecification := { }
deriving DecidableEq, Repr

/-- The four keep-spec target sets of `ProguardConfiguration`. -/
structure ProguardConfig where
  keep_rules : List KeepSpec := []
  assumenosideeffects_rules : List KeepSpec := []
  assumevalues_rules : List KeepSpec := []
  whyareyoukeeping_rules : List KeepSpec := []
deriving DecidableEq, Repr

/-- Error counters of `Stats` that the parser maintains. -/
structure ParseStats where
  parse_errors : Nat := 0
  unknown_commands : Nat := 0
  unimplemented : Nat := 0
deriving DecidableEq, Repr

/-! ## Keep-rule parser: parsing functions -/

/-- Mirror of `skip_to_next_command` (fuel-bounded; each iteration
consumes at least one token). -/
def skip_to_next_command : Nat → List Token → List Token
  | 0, toks => toks
  | fuel + 1, toks =>
    if curType toks = .eof_token then toks
    else if (curType toks).is_command then toks
    else skip_to_next_command fuel (nextTok toks)

/-- Mirror of `skip_to_semicolon`. -/
def skip_to_semicolon : Nat → List Token → List Token
  | 0, toks => toks
  | fuel + 1, toks =>
    if curType toks = .semiColon then nextTok toks
    else if curType toks = .eof_token then toks
    else skip_to_semicolon fuel (nextTok toks)

/-- Mirror of `is_modifier`. -/
def is_modifier (tok : TokenType) : Bool :=
  tok == .includedescriptorclasses_token || tok == .allowshrinking_token ||
  tok == .allowoptimization_token || tok == .allowobfuscation_token

/-- Mirror of `parse_modifiers`: fold the optional `,MODIFIER` list into
the keep spec; `false` on a comma followed by a non-modifier. -/
def parse_modifiers : Nat → List Token → KeepSpec → Bool × KeepSpec × List Token
  | 0, toks, keep => (true, keep, toks)
  | fuel + 1, toks, keep =>
    if curType toks = .comma then
      if !is_modifier (curType (nextTok toks)) then (false, keep, nextTok toks)
      else
        parse_modifiers fuel (nextTok (nextTok toks))
          (match curType (nextTok toks) with
           | .includedescriptorclasses_token => { keep with includedescriptorclasses := true }
           | .allowshrinking_token => { keep with allowshrinking := true }
           | .allowoptimization_token => { keep with allowoptimization := true }
           | .allowobfuscation_token => { keep with allowobfuscation := true }
           | _ => keep)
    else (true, keep, toks)

/-- Mirror of `parse_annotation_type`; `convert` is the external pure
`convert_wildcard_type`. -/
def parse_annotation_type (convert : String → String) (toks : List Token) :
    String × List Token :=
  if curType toks ≠ .annotation_application then ("", toks)
  else
    let toks1 := nextTok toks
    if curType toks1 ≠ .identifier then ("", toks1)
    else (convert (curData toks1), nextTok toks1)

/-- Mirror of `process_access_modifier`. -/
def process_access_modifier : TokenType → Option Nat
  | .publicToken => some ACC_PUBLIC
  | .privateToken => some ACC_PRIVATE
  | .final => some ACC_FINAL
  | .abstract => some ACC_ABSTRACT
  | .synthetic => some ACC_SYNTHETIC
  | .staticToken => some ACC_STATIC
  | .volatileToken => some ACC_VOLATILE
  | .native => some ACC_NATIVE
  | .protectedToken => some ACC_PROTECTED
  | .transient => some ACC_TRANSIENT
  | _ => none

/-- Mirror of `is_negation_or_class_access_modifier`. -/
def is_negation_or_class_access_modifier : TokenType → Bool
  | .notToken | .publicToken | .privateToken | .protectedToken | .final
  | .abstract | .synthetic | .native | .staticToken | .volatileToken
  | .transient => true
  | _ => false

/-- Mirror of `parse_access_flags`, including its raw (comment-blind)
peek past a `!`; `false` on a flag that appears both set and unset. -/
def parse_access_flags : Nat → List Token → Nat → Nat → Bool × Nat × Nat × List Token
  | 0, toks, setF, unsetF => (true, setF, unsetF, toks)
  | fuel + 1, toks, setF, unsetF =>
    if is_negation_or_class_access_modifier (curType toks) then
      let negated := curType toks = .notToken
      let access_toks := if curType toks = .notToken then toks.drop 1 else toks
      match process_access_modifier (curType access_toks) with
      | some flag =>
        let toks1 := access_toks.drop 1
        if negated then
          if is_access_flag_set setF flag then (false, setF, unsetF, toks1)
          else parse_access_flags fuel toks1 setF (set_access_flag unsetF flag)
        else
          if is_access_flag_set unsetF flag then (false, setF, unsetF, toks1)
          else parse_access_flags fuel toks1 (set_access_flag setF flag) unsetF
      | none => (true, setF, unsetF, toks)
    else (true, setF, unsetF, toks)

/-- Mirror of `parse_class_token`: `[!](class|interface|enum|@interface)`. -/
def parse_class_token (toks : List Token) (setF unsetF : Nat) :
    Bool × Nat × Nat × List Token :=
  let negated := curType toks = .notToken
  let toks1 := if negated then nextTok toks else toks
  let apply := fun (flag : Nat) =>
    if negated then (setF, set_access_flag unsetF flag)
    else (set_access_flag setF flag, unsetF)
  match curType toks1 with
  | .interface => let p := apply ACC_INTERFACE; (true, p.1, p.2, nextTok toks1)
  | .enumToken => let p := apply ACC_ENUM; (true, p.1, p.2, nextTok toks1)
  | .annotationKw => let p := apply ACC_ANNOTATION; (true, p.1, p.2, nextTok toks1)
  | .classToken => (true, setF, unsetF, nextTok toks1)
  | _ => (false, setF, unsetF, toks1)

/-- Mirror of `consume_token`. -/
def consume_token (toks : List Token) (tok : TokenType) : Bool × List Token :=
  if curType toks ≠ tok then (false, toks) else (true, nextTok toks)

/-- Mirror of `gobble_semicolon`. -/
def gobble_semicolon (toks : List Token) : Bool × List Token :=
  consume_token toks .semiColon

/-- Mirror of `parse_class_name`. -/
def parse_class_name (toks : List Token) : Option String × List Token :=
  if curType toks ≠ .identifier then (none, toks)
  else (some (curData toks), nextTok toks)

/-- Comma-continuation loop of `parse_class_names`. -/
def parse_class_names_rest : Nat → List Token → List ClassNameSpec →
    Bool × List ClassNameSpec × List Token
  | 0, toks, acc => (true, acc, toks)
  | fuel + 1, toks, acc =>
    if curType toks = .comma then
      let toks1 := nextTok toks
      let negated := curType toks1 = .notToken
      let toks2 := if negated then nextTok toks1 else toks1
      match (parse_class_name toks2).1 with
      | some cn => parse_class_names_rest fuel (nextTok toks2) (acc ++ [⟨cn, negated⟩])
      | none => (false, acc, toks2)
    else (true, acc, toks)

/-- Mirror of `parse_class_names`: `[!]ident (',' [!]ident)*`. -/
def parse_class_names (fuel : Nat) (toks : List Token) :
    Bool × List ClassNameSpec × List Token :=
  let negated := curType toks = .notToken
  let toks1 := if negated then nextTok toks else toks
  match (parse_class_name toks1).1 with
  | some cn => parse_class_names_rest fuel (nextTok toks1) [⟨cn, negated⟩]
  | none => (false, [], toks1)

/-- Head character of a `std::string` through `operator[]`, which yields
the null character on an empty string. -/
def strHead (s : String) : Char := s.toList.headD (Char.ofNat 0)

/-- Argument-list loop of `parse_member_specification`, accumulating the
descriptor text between the brackets. -/
def parse_arg_list (convert : String → String) :
    Nat → List Token → String → Bool × String × List Token
  | 0, toks, arg => (true, arg, toks)
  | fuel + 1, toks, arg =>
    if curType toks = .closeBracket then (true, arg, nextTok toks)
    else if curType toks ≠ .identifier then (false, arg, toks)
    else
      let typ := curData toks
      let toks1 := (consume_token toks .identifier).2
      let arg1 := arg ++ convert typ
      if curType toks1 ≠ .comma ∧ curType toks1 ≠ .closeBracket then (false, arg1, toks1)
      else if curType toks1 = .comma then
        let toks2 := (consume_token toks1 .comma).2
        if curType toks2 ≠ .identifier then (false, arg1, toks2)
        else parse_arg_list convert fuel toks2 arg1
      else parse_arg_list convert fuel toks1 arg1

/-- Mirror of `parse_member_specification`: one member clause ending in a
semicolon, pushed onto the field and/or method list of the class spec. -/
def parse_member_specification (fuel : Nat) (convert : String → String)
    (toks : List Token) (class_spec : ClassSpecification) (allow_return : Bool) :
    Bool × ClassSpecification × List Token :=
  let pa := parse_annotation_type convert toks
  let ms1 : MemberSpecification := { annotationType := pa.1 }
  let pf := parse_access_flags fuel pa.2 ms1.requiredSetAccessFlags ms1.requiredUnsetAccessFlags
  if !pf.1 then (false, class_spec, skip_to_semicolon fuel pf.2.2.2)
  else
    let ms2 := { ms1 with requiredSetAccessFlags := pf.2.1,
                          requiredUnsetAccessFlags := pf.2.2.1 }
    let toks2 := pf.2.2.2
    if curType toks2 ≠ .identifier then (false, class_spec, skip_to_semicolon fuel toks2)
    else
      let ident := curData toks2
      if ident = "*" then
        let ms3 := { ms2 with name := "", descriptor := "" }
        let g := gobble_semicolon (nextTok toks2)
        if !g.1 then (false, class_spec, g.2)
        else
          (true, { class_spec with
              methodSpecifications := class_spec.methodSpecifications ++ [ms3]
              fieldSpecifications := class_spec.fieldSpecifications ++ [ms3] }, g.2)
      else if ident = "<methods>" then
        let ms3 := { ms2 with name := "", descriptor := "" }
        let g := gobble_semicolon (nextTok toks2)
        if !g.1 then (false, class_spec, g.2)
        else
          (true, { class_spec with
              methodSpecifications := class_spec.methodSpecifications ++ [ms3] }, g.2)
      else if ident = "<fields>" then
        let ms3 := { ms2 with name := "", descriptor := "" }
        let g := gobble_semicolon (nextTok toks2)
        if !g.1 then (false, class_spec, g.2)
        else
          (true, { class_spec with
              fieldSpecifications := class_spec.fieldSpecifications ++ [ms3] }, g.2)
      else
        let p3 : Bool × MemberSpecification × List Token :=
          if ident = "<init>" then
            (true, { ms2 with
                name := "<init>"
                descriptor := "V"
                requiredSetAccessFlags :=
                  set_access_flag ms2.requiredSetAccessFlags ACC_CONSTRUCTOR },
              nextTok toks2)
          else
            let msA := { ms2 with descriptor := convert ident }
            let toksA := nextTok toks2
            if curType toksA ≠ .identifier then (false, msA, skip_to_semicolon fuel toksA)
            else (true, { msA with name := curData toksA }, nextTok toksA)
        if !p3.1 then (false, class_spec, p3.2.2)
        else
          let ms3 := p3.2.1
          let toks3 := p3.2.2
          let pargs : Bool × MemberSpecification × List Token :=
            if curType toks3 = .openBracket then
              let toksB := (consume_token toks3 .openBracket).2
              let r := parse_arg_list convert fuel toksB "("
              if !r.1 then (false, ms3, r.2.2)
              else (true, { ms3 with descriptor := r.2.1 ++ ")" ++ ms3.descriptor }, r.2.2)
            else (true, ms3, toks3)
          if !pargs.1 then (false, class_spec, pargs.2.2)
          else
            let ms4 := pargs.2.1
            let toks4 := pargs.2.2
            let pret : MemberSpecification × List Token :=
              if allow_return ∧ curType toks4 = .returns then
                let toks5 := nextTok toks4
                let rident := curData toks5
                if rident = "true" then
                  ({ ms4 with return_value_bool := some true }, nextTok toks5)
                else if rident = "false" then
                  ({ ms4 with return_value_bool := some false }, nextTok toks5)
                else (ms4, toks5)
              else (ms4, toks4)
            let g := gobble_semicolon pret.2
            if !g.1 then (false, class_spec, g.2)
            else if strHead pret.1.descriptor = '(' then
              (true, { class_spec with
                  methodSpecifications := class_spec.methodSpecifications ++ [pret.1] }, g.2)
            else
              (true, { class_spec with
                  fieldSpecifications := class_spec.fieldSpecifications ++ [pret.1] }, g.2)

/-- Member loop of `parse_member_specifications`: on a failed member the
loop does its own `skip_to_semicolon` (in addition to any skipping the
member parser already performed) and clears `ok`. -/
def parse_member_specifications_loop (convert : String → String) (allow_return : Bool) :
    Nat → List Token → ClassSpecification → Bool → Bool × ClassSpecification × List Token
  | 0, toks, cs, ok => (ok, cs, toks)
  | fuel + 1, toks, cs, ok =>
    if curType toks ≠ .closeCurlyBracket ∧ curType toks ≠ .eof_token then
      let r := parse_member_specification fuel convert toks cs allow_return
      if r.1 then parse_member_specifications_loop convert allow_return fuel r.2.2 r.2.1 ok
      else
        parse_member_specifications_loop convert allow_return fuel
          (skip_to_semicolon fuel r.2.2) r.2.1 false
    else (ok, cs, toks)

/-- Mirror of `parse_member_specifications`: the optional `{ ... }` body. -/
def parse_member_specifications (fuel : Nat) (convert : String → String)
    (toks : List Token) (cs : ClassSpecification) (allow_return : Bool) :
    Bool × ClassSpecification × List Token :=
  if curType toks = .openCurlyBracket then
    let r := parse_member_specifications_loop convert allow_return fuel (nextTok toks) cs true
    if curType r.2.2 = .closeCurlyBracket then (r.1, r.2.1, nextTok r.2.2)
    else (r.1, r.2.1, r.2.2)
  else (true, cs, toks)

/-- Mirror of `member_comparison` (`m1.name < m2.name`), the comparator
handed to `std::sort`; `std::string::operator<` is lexicographic character
comparison, taken here on the character lists. -/
def member_comparison (m1 m2 : MemberSpecification) : Bool :=
  m1.name.data < m2.name.data

/-- Everything `parse_class_specification` does before its final two
member-list sorts. -/
def parse_class_spec_unsorted (fuel : Nat) (convert : String → String)
    (toks : List Token) (allow_return : Bool) :
    Option ClassSpecification × List Token :=
  let pa := parse_annotation_type convert toks
  let cs0 : ClassSpecification := { annotationType := pa.1 }
  let pf := parse_access_flags fuel pa.2 cs0.setAccessFlags cs0.unsetAccessFlags
  if !pf.1 then (none, pf.2.2.2)
  else
    let cs1 := { cs0 with setAccessFlags := pf.2.1, unsetAccessFlags := pf.2.2.1 }
    let pc := parse_class_token pf.2.2.2 cs1.setAccessFlags cs1.unsetAccessFlags
    if !pc.1 then (none, pc.2.2.2)
    else
      let cs2 := { cs1 with setAccessFlags := pc.2.1, unsetAccessFlags := pc.2.2.1 }
      let pn := parse_class_names fuel pc.2.2.2
      if !pn.1 then (none, pn.2.2)
      else
        let cs3 := { cs2 with classNames := pn.2.1 }
        let toks3 := pn.2.2
        let pe : Bool × ClassSpecification × List Token :=
          if curType toks3 = .extendsToken ∨ curType toks3 = .implements then
            let toks4 := nextTok toks3
            let pa2 := parse_annotation_type convert toks4
            let cs4 := { cs3 with extendsAnnotationType := pa2.1 }
            if curType pa2.2 ≠ .identifier then
              (false, { cs4 with extendsClassName := "" }, pa2.2)
            else (true, { cs4 with extendsClassName := curData pa2.2 }, nextTok pa2.2)
          else (true, cs3, toks3)
        let pm := parse_member_specifications fuel convert pe.2.2 pe.2.1 allow_return
        if !pe.1 ∨ !pm.1 then (none, pm.2.2)
        else (some pm.2.1, pm.2.2)

/-- Mirror of `parse_class_specification`: parse the clause, then sort
both member lists with `std::sort(member_comparison)` on completion.
`sortFn` stands for `std::sort` specialised to `member_comparison`: the
C++ library guarantees only a sorted permutation, so it is a parameter
constrained by `sortContract` in the theorems. -/
def parse_class_specification (fuel : Nat) (convert : String → String)
    (sortFn : List MemberSpecification → List MemberSpecification)
    (toks : List Token) (allow_return : Bool) :
    Option ClassSpecification × List Token :=
  match parse_class_spec_unsorted fuel convert toks allow_return with
  | (some cs, toks1) =>
    (some { cs with fieldSpecifications := sortFn cs.fieldSpecifications,
                    methodSpecifications := sortFn cs.methodSpecifications }, toks1)
  | (none, toks1) => (none, toks1)

/-- Mirror of `parse_keep`: on a matching directive token, fold the
modifier list (aborting to the next command on failure, without
inserting), then parse the class specification; the keep spec is inserted
whether or not the class specification parsed, and the returned flag
records whether it did. -/
def parse_keep (fuel : Nat) (convert : String → String)
    (sortFn : List MemberSpecification → List MemberSpecification)
    (toks : List Token) (keep_kind : TokenType) (spec : List KeepSpec)
    (mark_classes mark_conditionally allowshrinking allow_return : Bool)
    (filename : String) (line : Nat) :
    Option Bool × List KeepSpec × List Token :=
  if curType toks = keep_kind then
    let toks1 := nextTok toks
    let keep0 : KeepSpec :=
      { mark_classes := mark_classes, mark_conditionally := mark_conditionally,
        allowshrinking := allowshrinking, source_filename := filename,
        source_line := line }
    let pm := parse_modifiers fuel toks1 keep0
    if !pm.1 then (some false, spec, skip_to_next_command fuel pm.2.2)
    else
      let pcs := parse_class_specification fuel convert sortFn pm.2.2 allow_return
      match pcs.1 with
      | some cs => (some true, spec ++ [{ pm.2.1 with class_spec := cs }], pcs.2)
      | none => (some false, spec ++ [pm.2.1], pcs.2)
  else (none, spec, toks)

/-- Target-set selector of `KeepSpecDesc::get_spec_set`. -/
inductive KeepTarget where
  | keep
  | assumeNoSideEffects
  | assumeValues
  | whyAreYouKeeping
deriving DecidableEq, Repr

/-- Read the selected keep-spec set of the configuration. -/
def KeepTarget.get : KeepTarget → ProguardConfig → List KeepSpec
  | .keep, pg => pg.keep_rules
  | .assumeNoSideEffects, pg => pg.assumenosideeffects_rules
  | .assumeValues, pg => pg.assumevalues_rules
  | .whyAreYouKeeping, pg => pg.whyareyoukeeping_rules

/-- Write the selected keep-spec set of the configuration (the C++ code
mutates through the pointer `get_spec_set` returns). -/
def KeepTarget.set : KeepTarget → ProguardConfig → List KeepSpec → ProguardConfig
  | .keep, pg, l => { pg with keep_rules := l }
  | .assumeNoSideEffects, pg, l => { pg with assumenosideeffects_rules := l }
  | .assumeValues, pg, l => { pg with assumevalues_rules := l }
  | .whyAreYouKeeping, pg, l => { pg with whyareyoukeeping_rules := l }

/-- Mirror of `struct KeepSpecDesc`. -/
structure KeepSpecDesc where
  token_type : TokenType
  spec_set : KeepTarget
  mark_classes : Bool
  mark_conditionally : Bool
  allowshrinking : Bool
  allow_return : Bool
deriving DecidableEq, Repr

/-- Mirror of the `KEEP_SPECS` table. -/
def KEEP_SPECS : List KeepSpecDesc :=
  [{ token_type := .keep, spec_set := .keep, mark_classes := true,
     mark_conditionally := false, allowshrinking := false, allow_return := false },
   { token_type := .keepclassmembers, spec_set := .keep, mark_classes := false,
     mark_conditionally := false, allowshrinking := false, allow_return := false },
   { token_type := .keepclasseswithmembers, spec_set := .keep, mark_classes := false,
     mark_conditionally := true, allowshrinking := false, allow_return := false },
   { token_type := .keepnames, spec_set := .keep, mark_classes := true,
     mark_conditionally := false, allowshrinking := true, allow_return := false },
   { token_type := .keepclassmembernames, spec_set := .keep, mark_classes := false,
     mark_conditionally := false, allowshrinking := true, allow_return := false },
   { token_type := .keepclasseswithmembernames, spec_set := .keep, mark_classes := false,
     mark_conditionally := true, allowshrinking := true, allow_return := false },
   { token_type := .assumenosideeffects, spec_set := .assumeNoSideEffects,
     mark_classes := false, mark_conditionally := false, allowshrinking := false,
     allow_return := true },
   { token_type := .assumevalues, spec_set := .assumeValues, mark_classes := false,
     mark_conditionally := false, allowshrinking := false, allow_return := true },
   { token_type := .whyareyoukeeping, spec_set := .whyAreYouKeeping,
     mark_classes := false, mark_conditionally := false, allowshrinking := false,
     allow_return := false }]

/-- Mirror of the `check_keep` lambda of `parse`: a keep parser that ran
but reported failure costs one parse error. -/
def check_keep (stats : ParseStats) : Option Bool → ParseStats
  | some false => { stats with parse_errors := stats.parse_errors + 1 }
  | _ => stats

/-- Mirror of the `parse_all_keep` lambda of `parse`: try each row of
`KEEP_SPECS` in order; the first whose token matches consumes the clause,
merges into its target set, and runs `check_keep`. -/
def parse_keep_dispatch (fuel : Nat) (convert : String → String)
    (sortFn : List MemberSpecification → List MemberSpecification)
    (toks : List Token) (pg : ProguardConfig) (stats : ParseStats)
    (filename : String) (line : Nat) :
    List KeepSpecDesc → Bool × ProguardConfig × ParseStats × List Token
  | [] => (false, pg, stats, toks)
  | desc :: rest =>
    let r := parse_keep fuel convert sortFn toks desc.token_type (desc.spec_set.get pg)
      desc.mark_classes desc.mark_conditionally desc.allowshrinking desc.allow_return
      filename line
    match r.1 with
    | some b => (true, desc.spec_set.set pg r.2.1, check_keep stats (some b), r.2.2)
    | none => parse_keep_dispatch fuel convert sortFn toks pg stats filename line rest

/-- The keep-family case of the top-level `parse` loop. -/
def parse_all_keep (fuel : Nat) (convert : String → String)
    (sortFn : List MemberSpecification → List MemberSpecification)
    (toks : List Token) (pg : ProguardConfig) (stats : ParseStats)
    (filename : String) (line : Nat) :
    Bool × ProguardConfig × ParseStats × List Token :=
  parse_keep_dispatch fuel convert sortFn toks pg stats filename line KEEP_SPECS

/-- Helper: a keep parser whose directive token is under the cursor
always engages (returns an engaged optional). -/
theorem parse_keep_engaged (fuel : Nat) (convert : String → String)
    (sortFn : List MemberSpecification → List MemberSpecification)
    (toks : List Token) (keep_kind : TokenType) (spec : List KeepSpec)
    (mc mcond ashr aret : Bool) (fn : String) (ln : Nat)
    (hk : curType toks = keep_kind) :
    ∃ b spec' toks',
      parse_keep fuel convert sortFn toks keep_kind spec mc mcond ashr aret fn ln =
        (some b, spec', toks') := by
  unfold parse_keep
  rw [if_pos hk]
  dsimp only
  split
  · exact ⟨false, _, _, rfl⟩
  · split
    · exact ⟨true, _, _, rfl⟩
    · exact ⟨false, _, _, rfl⟩

/-- Helper: a keep parser whose directive token is absent declines
without consuming or mutating. -/
theorem parse_keep_declines (fuel : Nat) (convert : String → String)
    (sortFn : List MemberSpecification → List MemberSpecification)
    (toks : List Token) (keep_kind : TokenType) (spec : List KeepSpec)
    (mc mcond ashr aret : Bool) (fn : String) (ln : Nat)
    (hk : curType toks ≠ keep_kind) :
    parse_keep fuel convert sortFn toks keep_kind spec mc mcond ashr aret fn ln =
      (none, spec, toks) := by
  unfold parse_keep
  rw [if_neg hk]

/-- Helper: over rows with pairwise-distinct directive tokens, the
dispatch hands the clause to exactly the row whose token is under the
cursor, stores the result in that row's target set, and charges
`check_keep`. -/
theorem parse_keep_dispatch_hits (fuel : Nat) (convert : String → String)
    (sortFn : List MemberSpecification → List MemberSpecification)
    (toks : List Token) (fn : String) (ln : Nat) :
    ∀ (rows : List KeepSpecDesc),
      rows.Pairwise (fun a b => a.token_type ≠ b.token_type) →
      ∀ desc ∈ rows, curType toks = desc.token_type →
      ∀ (pg : ProguardConfig) (stats : ParseStats),
        ∃ b spec' toks',
          parse_keep fuel convert sortFn toks desc.token_type (desc.spec_set.get pg)
            desc.mark_classes desc.mark_conditionally desc.allowshrinking
            desc.allow_return fn ln = (some b, spec', toks') ∧
          parse_keep_dispatch fuel convert sortFn toks pg stats fn ln rows =
            (true, desc.spec_set.set pg spec', check_keep stats (some b), toks') := by
  intro rows
  induction rows with
  | nil => intro _ desc hmem; exact absurd hmem (List.not_mem_nil desc)
  | cons d rest ih =>
    intro hpw desc hmem hcur pg stats
    rw [List.mem_cons] at hmem
    rcases hmem with hmem | hmem
    · subst hmem
      obtain ⟨b, spec', toks', heq⟩ := parse_keep_engaged fuel convert sortFn toks
        desc.token_type (desc.spec_set.get pg) desc.mark_classes desc.mark_conditionally
        desc.allowshrinking desc.allow_return fn ln hcur
      refine ⟨b, spec', toks', heq, ?_⟩
      unfold parse_keep_dispatch
      rw [heq]
    · have hne : curType toks ≠ d.token_type := by
        rw [hcur]
        exact fun hdd => (List.pairwise_cons.mp hpw).1 desc hmem hdd.symm
      have hdecl := parse_keep_declines fuel convert sortFn toks d.token_type
        (d.spec_set.get pg) d.mark_classes d.mark_conditionally d.allowshrinking
        d.allow_return fn ln hne
      obtain ⟨b, spec', toks', heq, hdisp⟩ :=
        ih (List.pairwise_cons.mp hpw).2 desc hmem hcur pg stats
      refine ⟨b, spec', toks', heq, ?_⟩
      unfold parse_keep_dispatch
      rw [hdecl]
      exact hdisp

/-- Helper: the modifier loop never touches `mark_classes` or
`mark_conditionally`, and never clears `allowshrinking` (an explicit
`,allowshrinking` modifier can only raise it). -/
theorem parse_modifiers_flags :
    ∀ (fuel : Nat) (toks : List Token) (keep : KeepSpec),
      (parse_modifiers fuel toks keep).2.1.mark_classes = keep.mark_classes ∧
      (parse_modifiers fuel toks keep).2.1.mark_conditionally = keep.mark_conditionally ∧
      (keep.allowshrinking = true →
        (parse_modifiers fuel toks keep).2.1.allowshrinking = true) := by
  intro fuel
  induction fuel with
  | zero => intro toks keep; exact ⟨rfl, rfl, fun h => h⟩
  | succ fuel ih =>
    intro toks keep
    unfold parse_modifiers
    split
    · split
      · exact ⟨rfl, rfl, fun h => h⟩
      · cases hm : curType (nextTok toks) <;>
          first
            | exact ih _ _
            | (obtain ⟨h1, h2, h3⟩ := ih (nextTok (nextTok toks))
                { keep with allowshrinking := true }
               exact ⟨h1, h2, fun _ => h3 rfl⟩)
    · exact ⟨rfl, rfl, fun h => h⟩

/-- C3 (amended): the nine keep-family rows carry exactly the tabulated
`(mark_classes, mark_conditionally, allowshrinking, allow_return, target)`
values; a successfully parsed rule appends exactly one KeepSpec whose
`mark_classes` and `mark_conditionally` equal the row's values and whose
`allowshrinking` is at least the row's value (an explicit `,allowshrinking`
modifier can raise it above the tabulated `false`); and the dispatch loop
hands each directive to its own row, storing the result in the tabulated
target set. -/
theorem keep_directive_dispatch (convert : String → String)
    (sortFn : List MemberSpecification → List MemberSpecification) :
    (KEEP_SPECS.map (fun d => (d.token_type, d.spec_set, d.mark_classes,
        d.mark_conditionally, d.allowshrinking, d.allow_return)) =
      [(.keep, .keep, true, false, false, false),
       (.keepclassmembers, .keep, false, false, false, false),
       (.keepclasseswithmembers, .keep, false, true, false, false),
       (.keepnames, .keep, true, false, true, false),
       (.keepclassmembernames, .keep, false, false, true, false),
       (.keepclasseswithmembernames, .keep, false, true, true, false),
       (.assumenosideeffects, .assumeNoSideEffects, false, false, false, true),
       (.assumevalues, .assumeValues, false, false, false, true),
       (.whyareyoukeeping, .whyAreYouKeeping, false, false, false, false)]) ∧
    (∀ (fuel : Nat) (toks : List Token) (keep_kind : TokenType) (spec : List KeepSpec)
        (mc mcond ashr aret : Bool) (fn : String) (ln : Nat)
        (spec' : List KeepSpec) (toks' : List Token),
      parse_keep fuel convert sortFn toks keep_kind spec mc mcond ashr aret fn ln =
        (some true, spec', toks') →
      ∃ k, spec' = spec ++ [k] ∧ k.mark_classes = mc ∧ k.mark_conditionally = mcond ∧
        (ashr = true → k.allowshrinking = true)) ∧
    (∀ (fuel : Nat) (toks : List Token) (pg : ProguardConfig) (stats : ParseStats)
        (fn : String) (ln : Nat) (desc : KeepSpecDesc),
      desc ∈ KEEP_SPECS → curType toks = desc.token_type →
      ∃ b spec' toks',
        parse_keep fuel convert sortFn toks desc.token_type (desc.spec_set.get pg)
          desc.mark_classes desc.mark_conditionally desc.allowshrinking
          desc.allow_return fn ln = (some b, spec', toks') ∧
        parse_all_keep fuel convert sortFn toks pg stats fn ln =
          (true, desc.spec_set.set pg spec', check_keep stats (some b), toks')) := by
  refine ⟨rfl, ?_, ?_⟩
  · intro fuel toks keep_kind spec mc mcond ashr aret fn ln spec' toks' h
    unfold parse_keep at h
    split at h
    · dsimp only at h
      split at h
      · exact absurd (congrArg (fun p => p.1) h) (by simp)
      · split at h
        · rename_i cs hcs
          rw [Prod.mk.injEq] at h
          rw [Prod.mk.injEq] at h
          obtain ⟨-, hspec, -⟩ := h
          refine ⟨_, hspec.symm, ?_, ?_, ?_⟩
          · exact (parse_modifiers_flags fuel (nextTok toks) _).1
          · exact (parse_modifiers_flags fuel (nextTok toks) _).2.1
          · intro hashr
            subst hashr
            exact (parse_modifiers_flags fuel (nextTok toks)
              { mark_classes := mc, mark_conditionally := mcond, allowshrinking := true,
                source_filename := fn, source_line := ln }).2.2 rfl
        · exact absurd (congrArg (fun p => p.1) h) (by simp)
    · exact absurd (congrArg (fun p => p.1) h) (by simp)
  · intro fuel toks pg stats fn ln desc hdesc hcur
    exact parse_keep_dispatch_hits fuel convert sortFn toks fn ln KEEP_SPECS
      (by decide) desc hdesc hcur pg stats

/-- Token stream for `-assumenosideeffects,allowshrinking class A`. -/
def demoModifierToks : List Token :=
  [⟨.assumenosideeffects, "-assumenosideeffects", 1⟩, ⟨.comma, ",", 1⟩,
   ⟨.allowshrinking_token, "allowshrinking", 1⟩, ⟨.classToken, "class", 1⟩,
   ⟨.identifier, "A", 1⟩, ⟨.eof_token, "", 1⟩]

/-- Counterexample for C3 as stated: a successfully parsed
`-assumenosideeffects,allowshrinking` rule lands in the
assume-no-side-effects set with `allowshrinking = true`, not the tabulated
`false`, so not every successfully parsed rule carries the tabulated
flag values. -/
theorem keep_tabulated_flags_counterexample :
    (parse_all_keep 20 id id demoModifierToks { } { } "f" 1).1 = true ∧
      ((parse_all_keep 20 id id demoModifierToks { } { } "f" 1).2.1.assumenosideeffects_rules.map
          (fun k => (k.mark_classes, k.mark_conditionally, k.allowshrinking))) =
        [(false, false, true)] := by
  constructor
  · rfl
  · rfl

/-- Token stream for `-keepnames class A`. -/
def demoKeepnamesToks : List Token :=
  [⟨.keepnames, "-keepnames", 1⟩, ⟨.classToken, "class", 1⟩,
   ⟨.identifier, "A", 1⟩, ⟨.eof_token, "", 1⟩]

/-- The `-keepnames` row of the table. -/
def demoKeepnamesDesc : KeepSpecDesc :=
  { token_type := .keepnames, spec_set := .keep, mark_classes := true,
    mark_conditionally := false, allowshrinking := true, allow_return := false }

/-- Result list of a concrete successful `-keepnames` parse. -/
def demoKeepnamesOut : List KeepSpec :=
  (parse_keep 20 id id demoKeepnamesToks .keepnames [] true false true false "f" 1).2.1

/-- Witness for C3: the `-keepnames` row is dispatched into `keep_rules`,
and the concrete successful parse appends one spec with the tabulated
marking flags. -/
theorem keep_directive_dispatch_witness :
    demoKeepnamesDesc ∈ KEEP_SPECS ∧
      curType demoKeepnamesToks = demoKeepnamesDesc.token_type ∧
      (∃ b spec' toks',
        parse_keep 20 id id demoKeepnamesToks demoKeepnamesDesc.token_type
          (demoKeepnamesDesc.spec_set.get { }) demoKeepnamesDesc.mark_classes
          demoKeepnamesDesc.mark_conditionally demoKeepnamesDesc.allowshrinking
          demoKeepnamesDesc.allow_return "f" 1 = (some b, spec', toks') ∧
        parse_all_keep 20 id id demoKeepnamesToks { } { } "f" 1 =
          (true, demoKeepnamesDesc.spec_set.set { } spec', check_keep { } (some b), toks')) ∧
      (parse_keep 20 id id demoKeepnamesToks .keepnames [] true false true false "f" 1).1 =
        some true ∧
      (∃ k, demoKeepnamesOut = [] ++ [k] ∧ k.mark_classes = true ∧
        k.mark_conditionally = false ∧ (true = true → k.allowshrinking = true)) :=
  ⟨by decide, by decide,
    (keep_directive_dispatch id id).2.2 20 demoKeepnamesToks { } { } "f" 1
      demoKeepnamesDesc (by decide) (by decide),
    by rfl,
    (keep_directive_dispatch id id).2.1 20 demoKeepnamesToks .keepnames [] true false true
      false "f" 1 demoKeepnamesOut
      (parse_keep 20 id id demoKeepnamesToks .keepnames [] true false true false "f" 1).2.2
      (by rfl)⟩

/-- Initial keep spec built at the top of `parse_keep`, before modifier
folding. -/
def keepInit (mc mcond ashr : Bool) (fn : String) (ln : Nat) : KeepSpec :=
  { mark_classes := mc, mark_conditionally := mcond, allowshrinking := ashr,
    source_filename := fn, source_line := ln }

/-- Token stream for `-keep , foo` (malformed modifier list). -/
def demoBadModifierToks : List Token :=
  [⟨.keep, "-keep", 1⟩, ⟨.comma, ",", 1⟩, ⟨.identifier, "foo", 1⟩,
   ⟨.eof_token, "", 1⟩]

/-- Counterexample for C6 as stated: on `-keep , foo` the keep parser
reports a parse failure (so the dispatch charges one parse error), yet no
KeepSpec at all is inserted — the malformed-modifier path returns before
`spec->emplace`. -/
theorem keep_error_still_inserted_counterexample :
    (parse_keep 20 id id demoBadModifierToks .keep [] true false false false "f" 1).1 =
      some false ∧
      (parse_keep 20 id id demoBadModifierToks .keep [] true false false false "f" 1).2.1 =
        [] ∧
      (parse_all_keep 20 id id demoBadModifierToks { } { } "f" 1).2.2.1.parse_errors = 1 ∧
      (parse_all_keep 20 id id demoBadModifierToks { } { } "f" 1).2.1 =
        ({ } : ProguardConfig) :=
  ⟨rfl, rfl, rfl, rfl⟩

/-- C6 (amended): a keep clause whose class specification fails is still
inserted, partially populated, and counted as a parse error; but a keep
clause whose modifier list is malformed is not inserted at all — the
parser skips to the next command and only the parse-error counter moves. -/
theorem keep_parse_error_insertion (fuel : Nat) (convert : String → String)
    (sortFn : List MemberSpecification → List MemberSpecification)
    (toks : List Token) (keep_kind : TokenType) (spec : List KeepSpec)
    (mc mcond ashr aret : Bool) (fn : String) (ln : Nat)
    (hk : curType toks = keep_kind) :
    ((parse_modifiers fuel (nextTok toks) (keepInit mc mcond ashr fn ln)).1 = false →
      parse_keep fuel convert sortFn toks keep_kind spec mc mcond ashr aret fn ln =
        (some false, spec,
          skip_to_next_command fuel
            (parse_modifiers fuel (nextTok toks) (keepInit mc mcond ashr fn ln)).2.2)) ∧
      ((parse_modifiers fuel (nextTok toks) (keepInit mc mcond ashr fn ln)).1 = true →
        (parse_class_specification fuel convert sortFn
            (parse_modifiers fuel (nextTok toks) (keepInit mc mcond ashr fn ln)).2.2
            aret).1 = none →
        parse_keep fuel convert sortFn toks keep_kind spec mc mcond ashr aret fn ln =
          (some false,
            spec ++ [(parse_modifiers fuel (nextTok toks) (keepInit mc mcond ashr fn ln)).2.1],
            (parse_class_specification fuel convert sortFn
              (parse_modifiers fuel (nextTok toks) (keepInit mc mcond ashr fn ln)).2.2
              aret).2)) ∧
      (∀ stats : ParseStats,
        (check_keep stats (some false)).parse_errors = stats.parse_errors + 1) := by
  refine ⟨?_, ?_, fun stats => rfl⟩
  · intro hpm
    unfold parse_keep
    rw [if_pos hk]
    dsimp only
    unfold keepInit at hpm
    rw [hpm]
    rfl
  · intro hpm hcs
    unfold parse_keep
    rw [if_pos hk]
    dsimp only
    unfold keepInit at hpm hcs
    rw [hpm]
    simp only [Bool.not_true, Bool.false_eq_true, if_false]
    rw [hcs]
    rfl

/-- Token stream for `-keep class` with the class name missing (the class
specification fails after the modifiers parsed fine). -/
def demoNoClassNameToks : List Token :=
  [⟨.keep, "-keep", 1⟩, ⟨.classToken, "class", 1⟩, ⟨.eof_token, "", 1⟩]

/-- Witness for C6: both failure shapes on concrete token streams, plus
the parse-error charge. -/
theorem keep_parse_error_insertion_witness :
    (curType demoBadModifierToks = .keep ∧
      (parse_modifiers 20 (nextTok demoBadModifierToks) (keepInit true false false "f" 1)).1 =
        false ∧
      parse_keep 20 id id demoBadModifierToks .keep [] true false false false "f" 1 =
        (some false, [],
          skip_to_next_command 20
            (parse_modifiers 20 (nextTok demoBadModifierToks)
              (keepInit true false false "f" 1)).2.2)) ∧
    (curType demoNoClassNameToks = .keep ∧
      (parse_modifiers 20 (nextTok demoNoClassNameToks) (keepInit true false false "f" 1)).1 =
        true ∧
      (parse_class_specification 20 id id
          (parse_modifiers 20 (nextTok demoNoClassNameToks)
            (keepInit true false false "f" 1)).2.2 false).1 = none ∧
      parse_keep 20 id id demoNoClassNameToks .keep [] true false false false "f" 1 =
        (some false,
          [] ++ [(parse_modifiers 20 (nextTok demoNoClassNameToks)
            (keepInit true false false "f" 1)).2.1],
          (parse_class_specification 20 id id
            (parse_modifiers 20 (nextTok demoNoClassNameToks)
              (keepInit true false false "f" 1)).2.2 false).2)) ∧
    (check_keep { } (some false)).parse_errors = ({ } : ParseStats).parse_errors + 1 :=
  ⟨⟨by decide, by decide,
      (keep_parse_error_insertion 20 id id demoBadModifierToks .keep [] true false false
        false "f" 1 (by decide)).1 (by decide)⟩,
    ⟨by decide, by decide, by decide,
      (keep_parse_error_insertion 20 id id demoNoClassNameToks .keep [] true false false
        false "f" 1 (by decide)).2.1 (by decide) (by decide)⟩,
    (keep_parse_error_insertion 20 id id demoNoClassNameToks .keep [] true false false
      false "f" 1 (by decide)).2.2 { }⟩

/-- Non-strict order induced by `member_comparison`: `std::sort` with that
comparator guarantees an output in which no later element compares
strictly before an earlier one. -/
def memberLe (a b : MemberSpecification) : Prop := ¬ member_comparison b a = true

instance : DecidableRel memberLe := fun a b =>
  show Decidable ¬(member_comparison b a = true) from inferInstance

instance : IsTotal MemberSpecification memberLe := ⟨by
  intro a b
  unfold memberLe member_comparison
  simp only [decide_eq_true_eq]
  rcases le_total a.name.data b.name.data with h | h
  · exact Or.inl (not_lt.mpr h)
  · exact Or.inr (not_lt.mpr h)⟩

instance : IsTrans MemberSpecification memberLe := ⟨by
  intro a b c hab hbc
  unfold memberLe member_comparison at *
  simp only [decide_eq_true_eq] at *
  exact not_lt.mpr (le_trans (not_lt.mp hab) (not_lt.mp hbc))⟩

/-- What the C++ standard guarantees of `std::sort(member_comparison)`:
the output is a permutation of the input, sorted for the comparator.
Stability is deliberately NOT part of this contract. -/
def sortContract (f : List MemberSpecification → List MemberSpecification) : Prop :=
  ∀ l, (f l).Perm l ∧ (f l).Sorted memberLe

/-- A legal `std::sort` implementation that reverses ties: insertion sort
of the reversed input.  It satisfies `sortContract` but inverts the
relative order of equal-name members. -/
def badMemberSort (l : List MemberSpecification) : List MemberSpecification :=
  l.reverse.insertionSort memberLe

/-- The tie-reversing sort satisfies the `std::sort` contract. -/
theorem badMemberSort_contract : sortContract badMemberSort := by
  intro l
  constructor
  · exact (List.perm_insertionSort memberLe l.reverse).trans (List.reverse_perm l)
  · exact List.sorted_insertionSort memberLe l.reverse

/-- C7 (amended): on completion of a class specification the method and
field lists are sorted by member name, and their multisets do not depend
on which contract-satisfying sort implementation `std::sort` happens to
be; the relative order of equal-name members is NOT specified. -/
theorem class_spec_members_sorted (fuel : Nat) (convert : String → String)
    (f g : List MemberSpecification → List MemberSpecification)
    (hf : sortContract f) (hg : sortContract g)
    (toks : List Token) (allow_return : Bool) (cs cs2 : ClassSpecification)
    (toks1 toks2 : List Token)
    (h1 : parse_class_specification fuel convert f toks allow_return = (some cs, toks1))
    (h2 : parse_class_specification fuel convert g toks allow_return = (some cs2, toks2)) :
    cs.methodSpecifications.Sorted memberLe ∧
      cs.fieldSpecifications.Sorted memberLe ∧
      cs.methodSpecifications.Perm cs2.methodSpecifications ∧
      cs.fieldSpecifications.Perm cs2.fieldSpecifications := by
  unfold parse_class_specification at h1 h2
  rcases hraw : parse_class_spec_unsorted fuel convert toks allow_return with ⟨o, rest⟩
  rw [hraw] at h1 h2
  cases o with
  | none =>
    exact absurd (congrArg (fun p => p.1) h1) (by simp)
  | some cs0 =>
    dsimp only at h1 h2
    have hcs : cs = { cs0 with fieldSpecifications := f cs0.fieldSpecifications,
                               methodSpecifications := f cs0.methodSpecifications } := by
      have := congrArg (fun p => p.1) h1
      simp only at this
      injection this with this'
      exact this'.symm
    have hcs2 : cs2 = { cs0 with fieldSpecifications := g cs0.fieldSpecifications,
                                 methodSpecifications := g cs0.methodSpecifications } := by
      have := congrArg (fun p => p.1) h2
      simp only at this
      injection this with this'
      exact this'.symm
    subst hcs
    subst hcs2
    refine ⟨(hf cs0.methodSpecifications).2, (hf cs0.fieldSpecifications).2, ?_, ?_⟩
    · exact (hf cs0.methodSpecifications).1.trans (hg cs0.methodSpecifications).1.symm
    · exact (hf cs0.fieldSpecifications).1.trans (hg cs0.fieldSpecifications).1.symm

/-- Token stream for `class A \x7b void foo(long); void foo(int); \x7d`:
two method specs with equal names and different descriptors, in that
parse order. -/
def demoTieToks : List Token :=
  [⟨.classToken, "class", 1⟩, ⟨.identifier, "A", 1⟩, ⟨.openCurlyBracket, "", 1⟩,
   ⟨.identifier, "void", 1⟩, ⟨.identifier, "foo", 1⟩, ⟨.openBracket, "", 1⟩,
   ⟨.identifier, "long", 1⟩, ⟨.closeBracket, "", 1⟩, ⟨.semiColon, "", 1⟩,
   ⟨.identifier, "void", 1⟩, ⟨.identifier, "foo", 1⟩, ⟨.openBracket, "", 1⟩,
   ⟨.identifier, "int", 1⟩, ⟨.closeBracket, "", 1⟩, ⟨.semiColon, "", 1⟩,
   ⟨.closeCurlyBracket, "", 1⟩, ⟨.eof_token, "", 1⟩]

/-- Counterexample for C7 as stated: under the contract-satisfying sort
implementation `badMemberSort`, the completed class spec lists the two
equal-name methods in the opposite of their parse order, so the code does
not guarantee a stable sort (it uses `std::sort`, not
`std::stable_sort`). -/
theorem class_spec_sort_stability_counterexample :
    sortContract badMemberSort ∧
      ((parse_class_spec_unsorted 32 id demoTieToks false).1.map
          (fun cs => cs.methodSpecifications.map (fun m => (m.name, m.descriptor)))) =
        some [("foo", "(long)void"), ("foo", "(int)void")] ∧
      ((parse_class_specification 32 id badMemberSort demoTieToks false).1.map
          (fun cs => cs.methodSpecifications.map (fun m => (m.name, m.descriptor)))) =
        some [("foo", "(int)void"), ("foo", "(long)void")] :=
  ⟨badMemberSort_contract, by rfl, by decide⟩

/-- The concrete class spec the tie-reversing run returns. -/
def demoTieOut : ClassSpecification :=
  ((parse_class_specification 32 id badMemberSort demoTieToks false).1).getD default

/-- Witness for C7: the amended theorem applied to the concrete run. -/
theorem class_spec_members_sorted_witness :
    sortContract badMemberSort ∧
      parse_class_specification 32 id badMemberSort demoTieToks false =
        (some demoTieOut,
          (parse_class_specification 32 id badMemberSort demoTieToks false).2) ∧
      (demoTieOut.methodSpecifications.Sorted memberLe ∧
        demoTieOut.fieldSpecifications.Sorted memberLe ∧
        demoTieOut.methodSpecifications.Perm demoTieOut.methodSpecifications ∧
        demoTieOut.fieldSpecifications.Perm demoTieOut.fieldSpecifications) :=
  ⟨badMemberSort_contract, by rfl,
    class_spec_members_sorted 32 id badMemberSort badMemberSort
      badMemberSort_contract badMemberSort_contract demoTieToks false
      demoTieOut demoTieOut
      (parse_class_specification 32 id badMemberSort demoTieToks false).2
      (parse_class_specification 32 id badMemberSort demoTieToks false).2
      (by rfl) (by rfl)⟩
